import Mathlib

/-!
Verification development for the DXF-to-SVG entity rendering engine
(`src/index.mjs`).  The JavaScript source is shallowly embedded: JS numbers
become `JNum` (an exact rational together with the IEEE special values),
records become lists of (group code, string value) pairs, the diagnostic
sink becomes an accumulated list, and thrown errors become `Except`.
Transcendental library functions (`Math.atan2`, `Math.hypot`, `Math.cos`,
`Math.sin`) are abstracted into a `JsMath` parameter; theorems quantify
over it, constraining it only where a claim genuinely depends on a value.
-/

/-- An exact rational with positive denominator, kept in lowest terms by
every constructor, so that structural equality is value equality and every
operation kernel-reduces (the library `Rat` operations are opaque to the
kernel and cannot back concrete evaluation in proofs). -/
structure JsRat where
  num : ℤ
  den : ℕ
deriving DecidableEq, Repr

namespace JsRat

/-- Normalizing constructor. -/
def jrat (n : ℤ) (d : ℕ) : JsRat :=
  if d = 0 then ⟨0, 1⟩
  else
    let g := Nat.gcd n.natAbs d
    ⟨n / (g : ℤ), d / g⟩

instance (n : ℕ) : OfNat JsRat n := ⟨⟨n, 1⟩⟩
instance : NatCast JsRat := ⟨fun n => ⟨n, 1⟩⟩
instance : IntCast JsRat := ⟨fun n => ⟨n, 1⟩⟩
instance : Neg JsRat := ⟨fun q => ⟨-q.num, q.den⟩⟩
instance : Add JsRat := ⟨fun a b => jrat (a.num * b.den + b.num * a.den) (a.den * b.den)⟩
instance : Sub JsRat := ⟨fun a b => jrat (a.num * b.den - b.num * a.den) (a.den * b.den)⟩
instance : Mul JsRat := ⟨fun a b => jrat (a.num * b.num) (a.den * b.den)⟩
instance : Div JsRat := ⟨fun a b =>
  jrat (if b.num < 0 then -(a.num * b.den) else a.num * b.den) (a.den * b.num.natAbs)⟩
instance : Pow JsRat ℕ := ⟨fun q n => ⟨q.num ^ n, q.den ^ n⟩⟩
instance : LT JsRat := ⟨fun a b => a.num * (b.den : ℤ) < b.num * (a.den : ℤ)⟩
instance : LE JsRat := ⟨fun a b => a.num * (b.den : ℤ) ≤ b.num * (a.den : ℤ)⟩
instance (a b : JsRat) : Decidable (a < b) :=
  inferInstanceAs (Decidable (a.num * (b.den : ℤ) < b.num * (a.den : ℤ)))
instance (a b : JsRat) : Decidable (a ≤ b) :=
  inferInstanceAs (Decidable (a.num * (b.den : ℤ) ≤ b.num * (a.den : ℤ)))

/-- Absolute value. -/
def abs (q : JsRat) : JsRat := ⟨|q.num|, q.den⟩

/-- Floor of a rational. -/
def floor (q : JsRat) : ℤ := Int.fdiv q.num q.den

end JsRat

export JsRat (jrat)


/-- A JavaScript number: an exact rational (standing in for the IEEE double
it denotes) or one of the special values. -/
inductive JNum where
  | fin (q : JsRat)
  | posInf
  | negInf
  | nan
deriving DecidableEq, Repr, Inhabited

namespace JNum

/-- JS unary minus. -/
def jneg : JNum → JNum
  | fin q => fin (-q)
  | posInf => negInf
  | negInf => posInf
  | nan => nan

/-- JS addition, with the IEEE rules for the special values. -/
def jadd : JNum → JNum → JNum
  | fin a, fin b => fin (a + b)
  | fin _, posInf => posInf
  | fin _, negInf => negInf
  | posInf, fin _ => posInf
  | negInf, fin _ => negInf
  | posInf, posInf => posInf
  | negInf, negInf => negInf
  | posInf, negInf => nan
  | negInf, posInf => nan
  | nan, _ => nan
  | _, nan => nan

/-- JS subtraction. -/
def jsub (a b : JNum) : JNum := jadd a (jneg b)

/-- JS multiplication, with the IEEE rules for the special values. -/
def jmul : JNum → JNum → JNum
  | fin a, fin b => fin (a * b)
  | fin a, posInf => if a > 0 then posInf else if a < 0 then negInf else nan
  | fin a, negInf => if a > 0 then negInf else if a < 0 then posInf else nan
  | posInf, fin b => if b > 0 then posInf else if b < 0 then negInf else nan
  | negInf, fin b => if b > 0 then negInf else if b < 0 then posInf else nan
  | posInf, posInf => posInf
  | posInf, negInf => negInf
  | negInf, posInf => negInf
  | negInf, negInf => posInf
  | nan, _ => nan
  | _, nan => nan

/-- JS division, with the IEEE rules for the special values (0/0 is NaN,
x/0 is a signed infinity, finite/infinite is 0). -/
def jdiv : JNum → JNum → JNum
  | fin a, fin b =>
      if b = 0 then (if a > 0 then posInf else if a < 0 then negInf else nan)
      else fin (a / b)
  | fin _, posInf => fin 0
  | fin _, negInf => fin 0
  | posInf, fin b => if b ≥ 0 then posInf else negInf
  | negInf, fin b => if b ≥ 0 then negInf else posInf
  | posInf, posInf => nan
  | posInf, negInf => nan
  | negInf, posInf => nan
  | negInf, negInf => nan
  | nan, _ => nan
  | _, nan => nan

/-- JS `Math.abs`. -/
def jabs : JNum → JNum
  | fin q => fin q.abs
  | posInf => posInf
  | negInf => posInf
  | nan => nan

/-- JS `<` comparison (false whenever an operand is NaN). -/
def jlt : JNum → JNum → Bool
  | fin a, fin b => a < b
  | fin _, posInf => true
  | fin _, negInf => false
  | posInf, _ => false
  | negInf, fin _ => true
  | negInf, posInf => true
  | negInf, negInf => false
  | nan, _ => false
  | _, nan => false

/-- JS `>` comparison. -/
def jgt (a b : JNum) : Bool := jlt b a

/-- JS `<=` comparison (false whenever an operand is NaN). -/
def jle : JNum → JNum → Bool
  | fin a, fin b => a ≤ b
  | fin _, posInf => true
  | fin _, negInf => false
  | posInf, posInf => true
  | posInf, fin _ => false
  | posInf, negInf => false
  | negInf, _ => true
  | nan, _ => false
  | _, nan => false

/-- JS strict equality `===` on numbers (NaN is not equal to itself). -/
def jseq : JNum → JNum → Bool
  | fin a, fin b => a = b
  | posInf, posInf => true
  | negInf, negInf => true
  | _, _ => false

/-- JS boolean coercion of a number: 0 and NaN are falsy. -/
def truthy : JNum → Bool
  | fin q => q ≠ 0
  | nan => false
  | _ => true

/-- JS `isFinite`. -/
def isFin : JNum → Bool
  | fin _ => true
  | _ => false

/-- JS `isNaN`. -/
def isNan : JNum → Bool
  | nan => true
  | _ => false

/-- JS `Math.min` of two non-NaN numbers (NaN propagates). -/
def jmin : JNum → JNum → JNum
  | nan, _ => nan
  | _, nan => nan
  | fin a, fin b => fin (if a < b then a else b)
  | fin a, posInf => fin a
  | fin _, negInf => negInf
  | posInf, b => b
  | negInf, _ => negInf

/-- JS `Math.max` of two non-NaN numbers (NaN propagates). -/
def jmax : JNum → JNum → JNum
  | nan, _ => nan
  | _, nan => nan
  | fin a, fin b => fin (if a < b then b else a)
  | fin a, negInf => fin a
  | fin _, posInf => posInf
  | negInf, b => b
  | posInf, _ => posInf

/-- Truncation of a rational toward zero, as JS `ToInt32`-style truncation
of a finite value. -/
def ratTrunc (q : JsRat) : ℤ := Int.tdiv q.num q.den

/-- JS `Math.round`: round half toward positive infinity. -/
def mround (q : JsRat) : ℤ := JsRat.floor (q + jrat 1 2)

/-- JS remainder `%` (sign of the dividend; NaN on NaN, infinite dividend
or zero divisor; finite `a % Infinity` is `a`). -/
def jrem : JNum → JNum → JNum
  | fin a, fin b =>
      if b = 0 then nan else fin (a - b * (ratTrunc (a / b) : JsRat))
  | fin a, posInf => fin a
  | fin a, negInf => fin a
  | posInf, _ => nan
  | negInf, _ => nan
  | nan, _ => nan
  | _, nan => nan

/-- The low 32-bit twos-complement integer a JS bitwise operator sees
(`ToInt32`): NaN and the infinities become 0, finite values are truncated
toward zero. The 2^32 wrap-around never matters for the group-code flag
words modelled here, so truncation alone is kept. -/
def toInt : JNum → ℤ
  | fin q => ratTrunc q
  | _ => 0

/-- Model of `10^z` over the rationals for an integer exponent. -/
def tenPow (z : ℤ) : JsRat :=
  if 0 ≤ z then ⟨(10 : ℤ) ^ z.toNat, 1⟩ else ⟨1, (10 : ℕ) ^ (-z).toNat⟩

/-- The exponent a JS number used as a `round` precision denotes: the shift
string `d + 'e' + precision` parses back only when the precision prints as
an integer, so non-integral precisions yield NaN downstream. -/
def toIntExact : JNum → Option ℤ
  | fin q => if q.den = 1 then some q.num else none
  | _ => none

end JNum

open JNum

/-- The exact rational value of the double `Math.PI`. -/
def jsPI : JsRat := jrat 884279719003555 281474976710656

/-- The exact rational value of the double `2 * Math.PI`. -/
def jsTwoPI : JsRat := jrat 884279719003555 140737488355328

/-- Model of `round` from the source: decimal-exact rounding via exponent shifting.
Over exact rationals the string-based shift is exactly multiplication by a
power of ten, so the model computes `Math.round(n·10^p)·10^(-p)`.  The
string hack turns an infinite argument into NaN, which is preserved here. -/
def jsRound (n precision : JNum) : JNum :=
  match n, JNum.toIntExact precision with
  | .fin q, some z => .fin ((JNum.mround (q * JNum.tenPow z) : JsRat) * JNum.tenPow (-z))
  | _, _ => .nan

/-- Consume a run of decimal digits, accumulating value and digit count. -/
def takeDigits : List Char → ℕ → ℕ → ℕ × ℕ × List Char
  | [], v, n => (v, n, [])
  | c :: cs, v, n =>
      if c.isDigit then takeDigits cs (10 * v + (c.toNat - 48)) (n + 1)
      else (v, n, c :: cs)

/-- Parse the unsigned mantissa of a JS decimal literal: digits, an optional
point, optional fractional digits; at least one digit overall. -/
def parseMantissa (cs : List Char) : Option (JsRat × List Char) :=
  let (ip, ipn, r1) := takeDigits cs 0 0
  match r1 with
  | '.' :: cs2 =>
      let (fp, fpn, r2) := takeDigits cs2 0 0
      if ipn + fpn = 0 then none
      else some ((ip : JsRat) + (fp : JsRat) / (10 : JsRat) ^ fpn, r2)
  | _ => if ipn = 0 then none else some ((ip : JsRat), r1)

/-- Parse the digits of an exponent (after its optional sign). -/
def parseExpDigits (cs : List Char) (negSign : Bool) : Option (ℤ × List Char) :=
  let (v, n, r) := takeDigits cs 0 0
  if n = 0 then none else some (if negSign then -(v : ℤ) else (v : ℤ), r)

/-- Parse an optional exponent marker with signed digits. -/
def parseExp : List Char → Option (ℤ × List Char)
  | 'e' :: '+' :: cs => parseExpDigits cs false
  | 'e' :: '-' :: cs => parseExpDigits cs true
  | 'e' :: cs => parseExpDigits cs false
  | 'E' :: '+' :: cs => parseExpDigits cs false
  | 'E' :: '-' :: cs => parseExpDigits cs true
  | 'E' :: cs => parseExpDigits cs false
  | cs => some (0, cs)

/-- Parse an unsigned JS numeric literal body ("Infinity" or a decimal with
optional exponent); the whole remaining input must be consumed. -/
def parseUnsigned (cs : List Char) : JNum :=
  if cs = "Infinity".toList then .posInf
  else
    match parseMantissa cs with
    | none => .nan
    | some (m, r1) =>
        match parseExp r1 with
        | none => .nan
        | some (e, r2) =>
            if r2 = [] then .fin (m * JNum.tenPow e) else .nan

/-- Whether `pat` is an initial segment of the character list. -/
def charsStartsWith : List Char → List Char → Bool
  | [], _ => true
  | _ :: _, [] => false
  | p :: ps, c :: cs => p = c && charsStartsWith ps cs

/-- Kernel-computable global replacement of a literal pattern over a
character list (JS `replace` with a global pattern); the fuel starts above
the list length, which is enough for every non-empty pattern. -/
def replaceAllAux (pat repl : List Char) : ℕ → List Char → List Char
  | 0, _ => []
  | _ + 1, [] => []
  | fuel + 1, c :: cs =>
      if charsStartsWith pat (c :: cs) then
        repl ++ replaceAllAux pat repl fuel ((c :: cs).drop pat.length)
      else c :: replaceAllAux pat repl fuel cs

/-- JS `String.replace` with a global literal pattern. -/
def jsReplaceAll (s pat repl : String) : String :=
  if pat.data.isEmpty then s
  else String.mk (replaceAllAux pat.data repl.data (s.data.length + 1) s.data)

/-- Replace the first occurrence of a literal pattern (character lists). -/
def replaceFirstChars (pat repl : List Char) : List Char → List Char
  | [] => []
  | c :: cs =>
      if charsStartsWith pat (c :: cs) then repl ++ (c :: cs).drop pat.length
      else c :: replaceFirstChars pat repl cs

/-- JS `String.prototype.trim`. -/
def jsStrTrim (s : String) : String :=
  String.mk (((s.data.dropWhile Char.isWhitespace).reverse.dropWhile
    Char.isWhitespace).reverse)

/-- Interleave a separator between the strings of a list (JS `join`). -/
def strIntercalate (sep : String) : List String → String
  | [] => ""
  | [x] => x
  | x :: rest => x ++ sep ++ strIntercalate sep rest

/-- JS string-to-number coercion (`+s` / `Number(s)`): whitespace-trimmed,
empty means 0, otherwise a signed decimal literal or Infinity; anything else
is NaN.  (The rarely used hex/octal/binary literal forms are not modelled;
no DXF value uses them.) -/
def jsStrToNum (s : String) : JNum :=
  let t := jsStrTrim s
  if t = "" then .fin 0
  else
    match t.toList with
    | '+' :: cs => parseUnsigned cs
    | '-' :: cs => (parseUnsigned cs).jneg
    | cs => parseUnsigned cs

/-- JS number coercion of a possibly absent string (`+undefined` is NaN). -/
def jsToNum : Option String → JNum
  | none => .nan
  | some s => jsStrToNum s

/-- Left-pad a digit string with zeros to width `w`. -/
def padZeros (s : String) (w : ℕ) : String :=
  if s.length < w then String.mk (List.replicate (w - s.length) '0') ++ s else s

/-- Drop trailing zero characters. -/
def stripTrailingZeros (s : String) : String :=
  String.mk ((s.toList.reverse.dropWhile (fun c => c = '0')).reverse)

/-- Decimal rendering of a nonnegative rational whose denominator divides a
power of ten (the only case a JS double printed here produces); other
denominators are truncated at 20 fractional digits. -/
def ratToStringNonneg (q : JsRat) : String :=
  let n := q.num.toNat
  let d := q.den
  let k := ((List.range 21).find? (fun k => (10 : ℕ) ^ k % d = 0)).getD 20
  let digits := n * 10 ^ k / d
  let ip := digits / 10 ^ k
  let fp := digits % 10 ^ k
  if fp = 0 then toString ip
  else toString ip ++ "." ++ stripTrailingZeros (padZeros (toString fp) k)

/-- Rendering of a rational as JS prints the double it denotes (decimal
positional form; the exponential forms for magnitudes beyond 1e21 or below
1e-6 do not occur for the coordinate ranges admitted by the sanity bound). -/
def ratToString (q : JsRat) : String :=
  if q < 0 then "-" ++ ratToStringNonneg (-q) else ratToStringNonneg q

/-- JS `ToString` on a number. -/
def jnumToString : JNum → String
  | .fin q => ratToString q
  | .posInf => "Infinity"
  | .negInf => "-Infinity"
  | .nan => "NaN"

/-- Model of `escapeHtml` from the source. -/
def escapeHtml (s : String) : String :=
  jsReplaceAll (jsReplaceAll (jsReplaceAll (jsReplaceAll s "&" "&amp;") "<" "&lt;")
    ">" "&gt;") "\"" "&quot;"

/-- JS `String.replace` with a non-global pattern: replace the first
occurrence only. -/
def replaceFirst (s pat repl : String) : String :=
  String.mk (replaceFirstChars pat.data repl.data s.data)

/-- A DXF record: ordered (group code, raw string value) pairs. -/
abbrev Record := List (Int × String)

/-- Model of `getGroupCodeValue` from the external record collaborator: the value of
the first pair carrying the requested group code. -/
def getGroupCodeValue (r : Record) (c : Int) : Option String :=
  (r.find? (fun p => p.1 = c)).map (fun p => p.2)

/-- Model of `getGroupCodeValue` applied through an optional record (JS tolerates an
undefined record and yields undefined). -/
def getGroupCodeValueO (r : Option Record) (c : Int) : Option String :=
  r.bind (fun rec => getGroupCodeValue rec c)

/-- Model of `getGroupCodeValues` from the external record collaborator: all values
carrying the requested group code, in record order. -/
def getGroupCodeValues (r : Record) (c : Int) : List String :=
  (r.filter (fun p => p.1 = c)).map (fun p => p.2)

/-- Model of `trim` from the source: trim a string, passing the empty string (and an
absent value) through unchanged. -/
def jsTrimVal (s : String) : String := if s = "" then s else jsStrTrim s

/-- Model of `$trim` from the source. -/
def dollarTrim (r : Record) (c : Int) : Option String :=
  (getGroupCodeValue r c).map jsTrimVal

/-- An error thrown by the engine: the numeric sanity-bound `Error`, or a
`TypeError` from indexing into an absent array element. -/
inductive JsErr where
  | invalidGroupCode (groupCode : Int) (value : JNum)
  | typeError (msg : String)
deriving DecidableEq, Repr

instance {ε : Type _} {α : Type _} [DecidableEq ε] [DecidableEq α] : DecidableEq (Except ε α)
  | .ok a, .ok b =>
      if h : a = b then .isTrue (by rw [h]) else .isFalse (fun hh => by cases hh; exact h rfl)
  | .ok _, .error _ => .isFalse (fun hh => by cases hh)
  | .error _, .ok _ => .isFalse (fun hh => by cases hh)
  | .error a, .error b =>
      if h : a = b then .isTrue (by rw [h]) else .isFalse (fun hh => by cases hh; exact h rfl)

/-- JS `String(error)` as interpolated into the diagnostic message. -/
def jsErrToString : JsErr → String
  | .invalidGroupCode c v =>
      "Error: group code " ++ toString c ++ " is invalid (" ++ jnumToString v ++ ")"
  | .typeError m => "TypeError: " ++ m

/-- Model of `$number` from the source: first value for the code as a number; the
default (or NaN) when absent or unparsable; a thrown `Error` when the
magnitude exceeds the 1e6 sanity bound; near-integers snapped within 1e-8. -/
def dollarNumber (record : Record) (groupCode : Int) (default : Option JNum) :
    Except JsErr JNum :=
  let value := jsToNum (getGroupCodeValue record groupCode)
  if value.isNan then .ok (default.getD .nan)
  else if jgt (jabs value) (.fin 1000000) then .error (.invalidGroupCode groupCode value)
  else
    match value with
    | .fin q =>
        let r := JNum.mround q
        if ((r : JsRat) - q).abs < jrat 1 100000000 then .ok (.fin (r : JsRat)) else .ok (.fin q)
    | v => .ok v

/-- Model of `$numbers` from the source. -/
def dollarNumbers (record : Record) (codes : List Int) : Except JsErr (List JNum) :=
  codes.mapM (fun c => dollarNumber record c none)

/-- Model of `$negates` from the source. -/
def dollarNegates (record : Record) (codes : List Int) : Except JsErr (List JNum) :=
  codes.mapM (fun c => (dollarNumber record c none).map JNum.jneg)

/-- Model of `nearlyEqual` from the source (tolerance 1/64). -/
def nearlyEqual (a b : JNum) : Bool :=
  jlt (jabs (jsub a b)) (.fin (jrat 1 64))

/-- A diagnostic delivered to the `warn` sink: message plus the context
records passed along with it. -/
abbrev Diag := String × List Record

/-- A JSX property value: a string, a number, an absent value, or an array
of already-rendered children. -/
inductive AVal where
  | s (str : String)
  | n (v : JNum)
  | undefVal
  | arr (ls : List String)
deriving DecidableEq, Repr

/-- JS truthiness of a property value (note a JS array is always truthy). -/
def AVal.truthy : AVal → Bool
  | .s str => str ≠ ""
  | .n v => JNum.truthy v
  | .undefVal => false
  | .arr _ => true

/-- Attribute-position serialization: strings are HTML-escaped, numbers are
stringified. -/
def AVal.render : AVal → String
  | .s str => escapeHtml str
  | .n v => jnumToString v
  | .undefVal => ""
  | .arr ls => String.join ls

/-- Children-position serialization: arrays are joined, nothing is escaped. -/
def AVal.renderChildren : AVal → String
  | .s str => str
  | .n v => jnumToString v
  | .undefVal => ""
  | .arr ls => String.join ls

/-- Lift an optional string into a property value. -/
def optStr : Option String → AVal
  | some s => .s s
  | none => .undefVal

/-- JS truthiness of an optional string. -/
def optTruthy : Option String → Bool
  | some s => s ≠ ""
  | none => false

/-- The `fill` property of a props list, for the `jsx` default-fill rule. -/
def propsFill (props : List (String × AVal)) : AVal :=
  (((props.find? (fun p => p.1 = "fill")).map (fun p => p.2))).getD .undefVal

/-- Model of `jsx` from the source: serialize an element.  Falsy property values are
dropped; the `children` property is extracted and rendered inside the
element; stroked shape types get `fill="none"` (when no fill is set) and
`vector-effect`; `text` gets its fixed extras. -/
def jsx (type : String) (props : List (String × AVal)) : String :=
  let init : String × Option AVal := ("", none)
  let acc := props.foldl (fun acc kv =>
    if kv.2.truthy = false then acc
    else if kv.1 = "children" then (acc.1, some kv.2)
    else (acc.1 ++ " " ++ kv.1 ++ "=\"" ++ kv.2.render ++ "\"", acc.2)) init
  let s := "<" ++ type ++ acc.1
  let s :=
    if type = "line" ∨ type = "polyline" ∨ type = "polygon" ∨ type = "circle" ∨ type = "path" then
      (if (propsFill props).truthy then s else s ++ " fill=\"none\"") ++
        " vector-effect=\"non-scaling-stroke\""
    else s
  let s := if type = "text" then s ++ " stroke=\"none\" style=\"white-space:pre\"" else s
  match acc.2 with
  | some c => s ++ ">" ++ c.renderChildren ++ "</" ++ type ++ ">"
  | none => s ++ "/>"

/-- JS `Array.prototype.slice` with the negative-index convention. -/
def jsSlice (l : List α) (start : ℤ) (stop : Option ℤ) : List α :=
  let len := l.length
  let s := if start < 0 then ((len : ℤ) + start).toNat else min start.toNat len
  let e := match stop with
    | none => len
    | some st => if st < 0 then ((len : ℤ) + st).toNat else min st.toNat len
  (l.take e).drop s

/-- A styled run returned by the single-line text collaborator. -/
structure TextRun where
  text : String
  k : Bool
  o : Bool
  u : Bool
deriving DecidableEq, Repr

/-- A font request as assembled for (and possibly rewritten by) the
`resolveFont` hook. -/
structure FontReq where
  family : String
  weight : JNum
  style : Option String
  scale : Option JNum
deriving DecidableEq, Repr

/-- A token of the multi-line rich-text collaborator: plain text, a nested
sequence, a stacked fraction `S`, a font switch `f`, or an oblique angle
`Q`. -/
inductive MToken where
  | str (s : String)
  | seq (ts : List MToken)
  | S (top mid bot : String)
  | f (family : String) (b : Bool) (i : Bool)
  | Q (deg : JNum)
deriving Repr

/-- The layer table entry derived once per invocation. -/
structure LayerInfo where
  color : String
  ltype : Option String
deriving DecidableEq, Repr

/-- The named sub-tables of a document. -/
structure DxfTables where
  LAYER : Option (List Record)
  LTYPE : Option (List Record)
  DIMSTYLE : Option (List Record)

/-- A parsed document: header variables, sub-tables, block mapping, entity
list. -/
structure Dxf where
  HEADER : Option (List (String × Record))
  TABLES : Option DxfTables
  BLOCKS : Option (List (String × List Record))
  ENTITIES : Option (List Record)

/-- The configuration passed to the converter.  The `warn` sink is modelled
by accumulating diagnostics; the external text collaborators and the color
resolver are carried as functions. -/
structure Options where
  resolveColorIndex : JNum → String
  parseDxfTextContent : String → List TextRun
  parseDxfMTextContent : String → List MToken
  resolveFont : Option (FontReq → FontReq)

/-- The abstracted transcendental functions of the JS `Math` library. -/
structure JsMath where
  atan2 : JNum → JNum → JNum
  hypot : JNum → JNum → JNum
  cos : JNum → JNum
  sin : JNum → JNum

/-- Model of `commonAttributes` from the source. -/
def commonAttributes (entity : Record) : List (String × AVal) :=
  [("data-5", optStr (dollarTrim entity 5))]

/-- The layer-table entries collected by `createEntitySvgMap` (keyed by the
raw layer name; a later duplicate overwrites an earlier one, as for a JS
object). -/
def layerEntries (dxf : Dxf) (opts : Options) : List (Option String × LayerInfo) :=
  ((dxf.TABLES.bind (fun t => t.LAYER)).getD []).filterMap (fun layer =>
    if getGroupCodeValue layer 0 = some "LAYER" then
      some (getGroupCodeValue layer 2,
        ⟨opts.resolveColorIndex (jsToNum (getGroupCodeValue layer 62)),
         getGroupCodeValue layer 6⟩)
    else none)

/-- Lookup in the layer map (last assignment wins). -/
def layerMapGet (dxf : Dxf) (opts : Options) (k : Option String) : Option LayerInfo :=
  (layerEntries dxf opts).foldl (fun acc e => if e.1 = k then some e.2 else acc) none

/-- Strip a leading minus sign from a dash segment. -/
def stripNegSign (s : String) : String :=
  match s.data with
  | '-' :: rest => String.mk rest
  | _ => s

/-- The dash-pattern normalization inlined in `createEntitySvgMap`: trim and
sign-strip the raw group-49 values; keep an empty or odd-length list as is;
for an even-length list, drop a leading "0" or else append a trailing "0". -/
def normalizeDasharray (raw : List String) : List String :=
  let a := (raw.map jsTrimVal).map stripNegSign
  if a.length = 0 ∨ a.length % 2 = 1 then a
  else if a.head? = some "0" then a.tail
  else a ++ ["0"]

/-- The linetype-table entries collected by `createEntitySvgMap` (only
non-empty normalized patterns are entered). -/
def ltypeEntries (dxf : Dxf) : List (Option String × String) :=
  ((dxf.TABLES.bind (fun t => t.LTYPE)).getD []).filterMap (fun lt =>
    if getGroupCodeValue lt 0 = some "LTYPE" then
      let sd := normalizeDasharray (getGroupCodeValues lt 49)
      if sd.length ≠ 0 then some (getGroupCodeValue lt 2, strIntercalate " " sd)
      else none
    else none)

/-- Lookup in the linetype map (last assignment wins). -/
def ltypeMapGet (dxf : Dxf) (k : Option String) : Option String :=
  (ltypeEntries dxf).foldl (fun acc e => if e.1 = k then some e.2 else acc) none

/-- Model of `_color` from the source: explicit index "0" yields `currentColor`;
any other truthy index except "256" resolves through the color collaborator;
otherwise the color of the owning layer, if the layer resolves. -/
def underscoreColor (dxf : Dxf) (opts : Options) (entity : Record) : Option String :=
  let colorIndex := dollarTrim entity 62
  if colorIndex = some "0" then some "currentColor"
  else if optTruthy colorIndex ∧ colorIndex ≠ some "256" then
    some (opts.resolveColorIndex (jsToNum colorIndex))
  else
    match layerMapGet dxf opts (dollarTrim entity 8) with
    | some l => some l.color
    | none => none

/-- Model of `color` from the source: `_color` with the `currentColor` fallback. -/
def color (dxf : Dxf) (opts : Options) (entity : Record) : String :=
  match underscoreColor dxf opts entity with
  | some s => if s = "" then "currentColor" else s
  | none => "currentColor"

/-- Model of `strokeDasharray` from the source: the linetype name of the entity, else that
of the owning layer, looked up in the linetype map. -/
def strokeDasharrayOf (dxf : Dxf) (opts : Options) (entity : Record) : Option String :=
  let key : Option String :=
    match getGroupCodeValue entity 6 with
    | some s => some s
    | none => (layerMapGet dxf opts (getGroupCodeValue entity 8)).bind (fun l => l.ltype)
  ltypeMapGet dxf key

/-- Model of `extrusionStyle` from the source: flag the horizontal mirror when the
extrusion normal Z is within 1/64 of -1. -/
def extrusionStyle (entity : Record) : Option String :=
  let extrusionZ := jsToNum (dollarTrim entity 230)
  if extrusionZ.truthy ∧ jlt (jabs (jadd extrusionZ (.fin 1))) (.fin (jrat 1 64)) then
    some "transform:rotateY(180deg)"
  else none

/-- Model of `lineAttributes` from the source. -/
def lineAttributes (dxf : Dxf) (opts : Options) (entity : Record) : List (String × AVal) :=
  commonAttributes entity ++
    [("stroke", .s (color dxf opts entity)),
     ("stroke-dasharray", optStr (strokeDasharrayOf dxf opts entity)),
     ("style", optStr (extrusionStyle entity))]

/-- The resolved dimension-style scalars. -/
structure DimStyleVals where
  DIMSCALE : JNum
  DIMTP : JNum
  DIMTM : JNum
  DIMTOL : JNum
  DIMTXT : JNum
  DIMLFAC : JNum
  DIMCLRT : JNum
  DIMDEC : JNum
deriving DecidableEq, Repr

/-- SameValueZero equality used by a JS `Map` key (NaN matches NaN). -/
def jkeyEq (a b : JNum) : Bool :=
  match a, b with
  | .nan, .nan => true
  | _, _ => jseq a b

/-- Lookup in the override map built by `collectDimensionStyleOverrides`
(`Map.set` overwrite means the last entry for a key wins). -/
def overridesGet (l : List (JNum × String)) (k : JNum) : Option String :=
  l.foldl (fun acc e => if jkeyEq e.1 k then some e.2 else acc) none

/-- The inner loop of `collectDimensionStyleOverrides`: collect 1070
key/value pairs until a 1002 closer; reading the value record past the end
of the data throws a `TypeError`, as `d[++j][1]` does in JS. -/
def collectOverridePairs : List (Int × String) → Except JsErr (List (JNum × String))
  | [] => .ok []
  | (c, v) :: rest =>
      if c = 1002 then .ok []
      else if c = 1070 then
        match rest with
        | [] => .error (.typeError "Cannot read properties of undefined")
        | (_, v2) :: rest2 =>
            (collectOverridePairs rest2).map (fun ps => (jsStrToNum v, v2) :: ps)
      else collectOverridePairs rest

/-- The outer scan of `collectDimensionStyleOverrides`: find the DSTYLE
application marker followed by the 1002 open-group marker; accessing the
record after a trailing DSTYLE marker throws, as `d[i + 1][0]` does in JS. -/
def findDstyle : List (Int × String) → Except JsErr (Option (List (JNum × String)))
  | [] => .ok none
  | (c, v) :: rest =>
      if c = 1000 ∧ jsStrTrim v = "DSTYLE" then
        match rest with
        | [] => .error (.typeError "Cannot read properties of undefined")
        | (c2, v2) :: rest2 =>
            if c2 = 1002 ∧ jsStrTrim v2 = "\x7b" then (collectOverridePairs rest2).map some
            else findDstyle ((c2, v2) :: rest2)
      else findDstyle rest

/-- Model of `collectDimensionStyleOverrides` from the source. -/
def collectDimensionStyleOverrides (d : Record) :
    Except JsErr (Option (List (JNum × String))) :=
  findDstyle d

/-- The header record for a `$`-prefixed variable name. -/
def headerRecord (dxf : Dxf) (name : String) : Option Record :=
  dxf.HEADER.bind (fun h => (h.find? (fun p => p.1 = name)).map (fun p => p.2))

/-- Resolution of one dimension-style variable through the four-level
precedence: override block, then style-table entry, then header variable,
then built-in default. -/
def dimVar (dxf : Dxf) (style : Option Record) (ov : Option (List (JNum × String)))
    (name : String) (code headerCode : Int) (default : JNum) : JNum :=
  let v := (ov.bind (fun m => overridesGet m (.fin (code : JsRat)))) <|>
    getGroupCodeValueO style code <|>
    getGroupCodeValueO (headerRecord dxf ("$" ++ name)) headerCode
  match v with
  | some s => jsStrToNum s
  | none => default

/-- Model of `collectDimensionStyles` from the source, with the `DimStyles` table
inlined per variable. -/
def collectDimensionStyles (dxf : Dxf) (dimension : Record) :
    Except JsErr DimStyleVals := do
  let styleName := getGroupCodeValue dimension 3
  let style := ((dxf.TABLES.bind (fun t => t.DIMSTYLE)).getD []).find?
    (fun st => getGroupCodeValue st 2 = styleName)
  let ov ← collectDimensionStyleOverrides dimension
  .ok ⟨dimVar dxf style ov "DIMSCALE" 40 40 (.fin 1),
       dimVar dxf style ov "DIMTP" 47 40 .nan,
       dimVar dxf style ov "DIMTM" 48 40 .nan,
       dimVar dxf style ov "DIMTOL" 71 70 (.fin 0),
       dimVar dxf style ov "DIMTXT" 140 40 (.fin 1),
       dimVar dxf style ov "DIMLFAC" 144 40 (.fin 1),
       dimVar dxf style ov "DIMCLRT" 178 70 .nan,
       dimVar dxf style ov "DIMDEC" 271 70 (.fin 4)⟩

/-- Model of `toleranceString` from the source: positive values get a plus sign,
negative values keep their minus sign, zero (and NaN) becomes " 0". -/
def toleranceString (n : JNum) : String :=
  if jgt n (.fin 0) then "+" ++ jnumToString n
  else if jlt n (.fin 0) then jnumToString n
  else " 0"

/-- Model of `dimensionValueToMText` from the source. -/
def dimensionValueToMText (measurement : JNum) (dimension : Record)
    (styles : DimStyleVals) : Except JsErr String := do
  let savedValue ← dollarNumber dimension 42 (some (.fin (-1)))
  let value := jsRound
    (if jseq savedValue (.fin (-1)) then jmul measurement styles.DIMLFAC else savedValue)
    styles.DIMDEC
  let valueWithTolerance :=
    if styles.DIMTOL.truthy then
      if styles.DIMTP.truthy ∨ styles.DIMTM.truthy then
        if jseq styles.DIMTP styles.DIMTM then
          jnumToString value ++ "  ±" ++ jnumToString styles.DIMTP
        else
          jnumToString value ++ "  \x7b\\S" ++ toleranceString styles.DIMTP ++ "^" ++
            toleranceString (jneg styles.DIMTM) ++ ";\x7d"
      else jnumToString value
    else jnumToString value
  match getGroupCodeValue dimension 1 with
  | some t =>
      .ok (if t ≠ "" then replaceFirst t "<>" valueWithTolerance else valueWithTolerance)
  | none => .ok valueWithTolerance

/-- Model of `MTEXT_attachmentPoint` from the source: the (dominant-baseline,
text-anchor) pair selected by the attachment-point code. -/
def MTEXT_attachmentPoint (v : Option String) : Option String × Option String :=
  let n := jsToNum v
  let dominantBaseline :=
    match n with
    | .fin q =>
        if q = 1 ∨ q = 2 ∨ q = 3 then some "text-before-edge"
        else if q = 4 ∨ q = 5 ∨ q = 6 then some "central"
        else if q = 7 ∨ q = 8 ∨ q = 9 then some "text-after-edge"
        else none
    | _ => none
  let m := jrem n (.fin 3)
  let textAnchor :=
    if jseq m (.fin 2) then some "middle"
    else if jseq m (.fin 0) then some "end"
    else none
  (dominantBaseline, textAnchor)

/-- Model of `yx2angle` from the source: `atan2` in degrees rounded to 5 decimals,
with falsy operands and a falsy result replaced by 0. -/
def yx2angle (M : JsMath) (y x : JNum) : JNum :=
  let jor0 := fun (v : JNum) => if v.truthy then v else JNum.fin 0
  let r := jsRound (jdiv (jmul (M.atan2 (jor0 y) (jor0 x)) (.fin 180)) (.fin jsPI)) (.fin 5)
  if r.truthy then r else .fin 0

/-- The backward scan of `MTEXT_angle`: starting from the last pair of the
record, the first group among 50 (explicit angle), 11 (direction-vector X
component) and 21 (direction-vector Y component) decides the angle. -/
def MTEXT_angleScan (M : JsMath) (mtext : Record) :
    List (Int × String) → Except JsErr JNum
  | [] => .ok (.fin 0)
  | (c, v) :: rest =>
      if c = 50 then
        let r := jsRound (jsStrToNum v) (.fin 5)
        .ok (if r.truthy then r else .fin 0)
      else if c = 11 then do
        let y ← dollarNumber mtext 12 none
        .ok (yx2angle M y (jsStrToNum v))
      else if c = 21 then do
        let x ← dollarNumber mtext 11 none
        .ok (yx2angle M (jsStrToNum v) x)
      else MTEXT_angleScan M mtext rest

/-- Model of `MTEXT_angle` from the source (the JS loop walks indices downward). -/
def MTEXT_angle (M : JsMath) (mtext : Record) : Except JsErr JNum :=
  MTEXT_angleScan M mtext mtext.reverse

mutual

/-- One token of `MTEXT_contents`: its own rendering placed before the
already-rendered following siblings (`rest`). -/
def MTEXT_content1 (opts : Option Options) : MToken → String → String
  | .str s, rest => s ++ rest
  | .seq ts, rest => MTEXT_contentsList opts ts ++ rest
  | .S a _ b, rest =>
      jsx "tspan"
        [("children", .arr
          [jsx "tspan" [("dy", .s "-.5em"), ("children", .s a)],
           jsx "tspan"
             [("dy", .s "1em"),
              ("dx", .s (jnumToString (jdiv (.fin (a.length : JsRat)) (.fin (-2))) ++ "em")),
              ("children", .s b)]])] ++ rest
  | .f fam bold ital, rest =>
      let base : FontReq :=
        ⟨fam, if bold then .fin 700 else .fin 400, if ital then some "italic" else none, none⟩
      let font :=
        match opts.bind (fun o => o.resolveFont) with
        | some rf => rf base
        | none => base
      jsx "tspan"
        [("font-family", .s font.family),
         ("font-weight", .n font.weight),
         ("font-style", optStr font.style),
         ("font-size",
            match font.scale with
            | some sc => if sc.truthy ∧ jseq sc (.fin 1) = false
                         then .s (jnumToString sc ++ "em") else .undefVal
            | none => .undefVal),
         ("children", .s rest)]
  | .Q deg, rest =>
      jsx "tspan"
        [("font-style", .s ("oblique " ++ jnumToString deg ++ "deg")),
         ("children", .s rest)]

/-- Model of `MTEXT_contents` from the source: fold the token list right-to-left so
each node precedes the concatenation of its following siblings. -/
def MTEXT_contentsList (opts : Option Options) : List MToken → String
  | [] => ""
  | t :: ts => MTEXT_content1 opts t (MTEXT_contentsList opts ts)

end

/-- Model of `textDecorations` from the source. -/
def textDecorations (r : TextRun) : String :=
  strIntercalate " "
    ((if r.k then ["line-through"] else []) ++
     (if r.o then ["overline"] else []) ++
     (if r.u then ["underline"] else []))

/-- Model of `TEXT_dominantBaseline` from the source: a sparse array indexed by the
raw justification string. -/
def TEXT_dominantBaseline : Option String → Option String
  | some "1" => some "text-after-edge"
  | some "2" => some "central"
  | some "3" => some "text-before-edge"
  | _ => none

/-- Model of `TEXT_textAnchor` from the source: a sparse array indexed by the raw
justification string. -/
def TEXT_textAnchor : Option String → Option String
  | some "1" => some "middle"
  | some "2" => some "end"
  | some "4" => some "middle"
  | _ => none

/-- Model of `polylinePoints` from the source; a missing paired coordinate prints as
`undefined`, exactly as JS interpolates it. -/
def polylinePoints (xs ys : List JNum) : String :=
  let pts := (List.range xs.length).foldl (fun acc i =>
    acc ++ jnumToString (xs.getD i .nan) ++ "," ++
      (match ys.get? i with
       | some y => jnumToString y
       | none => "undefined") ++ " ") ""
  String.mk pts.data.dropLast

/-- The bounding box of a scene. -/
structure BBox where
  x : JNum
  y : JNum
  w : JNum
  h : JNum
deriving DecidableEq, Repr

/-- What one entity interpreter produces: the diagnostics it emitted, then
either a thrown error or an optional (svg, contributed xs, contributed ys)
triple. -/
abbrev InterpResult := List Diag × Except JsErr (Option (String × List JNum × List JNum))

instance : DecidableEq Diag := inferInstance

instance : DecidableEq (Except JsErr (Option (String × List JNum × List JNum))) :=
  inferInstance

instance : DecidableEq InterpResult := inferInstance

/-- An entity interpreter: record and grouped vertex sub-records in,
`InterpResult` out. -/
abbrev EntityFn := Record → List Record → InterpResult

/-- Lift an optional number into a property value. -/
def optN : Option JNum → AVal
  | some v => .n v
  | none => .undefVal

/-- Bit 0 of the JS bitwise view of a number (`flags & 1`). -/
def jsBitAnd1 (n : JNum) : Bool := (JNum.toInt n) % 2 ≠ 0

/-- The low three bits of the JS bitwise view of a number (`type & 7`). -/
def jsAnd7 (n : JNum) : ℤ := (JNum.toInt n) % 8

/-- Bit 6 of the JS bitwise view of a number (`type & 64`). -/
def jsBit6 (n : JNum) : Bool := ((JNum.toInt n).fdiv 64) % 2 ≠ 0

/-- JS `Math.round` lifted to `JNum` (the special values round to
themselves). -/
def jsMathRound : JNum → JNum
  | .fin q => .fin (JNum.mround q : JsRat)
  | v => v

/-- The `LINE` interpreter. -/
def LINE (dxf : Dxf) (opts : Options) : EntityFn := fun entity _ =>
  ([], do
    let xs ← dollarNumbers entity [10, 11]
    let ys ← dollarNegates entity [20, 21]
    .ok (some (jsx "line" (lineAttributes dxf opts entity ++
        [("x1", .n (xs.getD 0 .nan)), ("y1", .n (ys.getD 0 .nan)),
         ("x2", .n (xs.getD 1 .nan)), ("y2", .n (ys.getD 1 .nan))]),
      xs, ys)))

/-- The flags word `+(getGroupCodeValue(entity, 70) ?? 0)`. -/
def entityFlags (entity : Record) : JNum :=
  match getGroupCodeValue entity 70 with
  | some s => jsStrToNum s
  | none => .fin 0

/-- The `POLYLINE` interpreter (uses the grouped vertex sub-records). -/
def POLYLINE (dxf : Dxf) (opts : Options) : EntityFn := fun entity vertices =>
  ([], do
    let xs ← vertices.mapM (fun v => dollarNumber v 10 none)
    let ys ← vertices.mapM (fun v => (dollarNumber v 20 none).map jneg)
    let attrs := lineAttributes dxf opts entity ++ [("points", .s (polylinePoints xs ys))]
    .ok (some
      ((if jsBitAnd1 (entityFlags entity) then jsx "polygon" attrs else jsx "polyline" attrs),
       xs, ys)))

/-- The `LWPOLYLINE` interpreter. -/
def LWPOLYLINE (dxf : Dxf) (opts : Options) : EntityFn := fun entity _ =>
  let xs := (getGroupCodeValues entity 10).map jsStrToNum
  let ys := (getGroupCodeValues entity 20).map (fun s => jneg (jsStrToNum s))
  let attrs := lineAttributes dxf opts entity ++ [("points", .s (polylinePoints xs ys))]
  ([], .ok (some
    ((if jsBitAnd1 (entityFlags entity) then jsx "polygon" attrs else jsx "polyline" attrs),
     xs, ys)))

/-- The `CIRCLE` interpreter. -/
def CIRCLE (dxf : Dxf) (opts : Options) : EntityFn := fun entity _ =>
  ([], do
    let ns ← dollarNumbers entity [10, 20, 40]
    let cx := ns.getD 0 .nan
    let cy := ns.getD 1 .nan
    let r := ns.getD 2 .nan
    .ok (some (jsx "circle" (lineAttributes dxf opts entity ++
        [("cx", .n cx), ("cy", .n (jneg cy)), ("r", .n r)]),
      [jsub cx r, jadd cx r],
      [jsub (jneg cy) r, jadd (jneg cy) r])))

/-- The `ARC` interpreter. -/
def ARC (M : JsMath) (dxf : Dxf) (opts : Options) : EntityFn := fun entity _ =>
  ([], do
    let ns ← dollarNumbers entity [10, 20, 40]
    let cx := ns.getD 0 .nan
    let cy := ns.getD 1 .nan
    let r := ns.getD 2 .nan
    let deg1 ← dollarNumber entity 50 (some (.fin 0))
    let deg2 ← dollarNumber entity 51 (some (.fin 0))
    let rad1 := jdiv (jmul deg1 (.fin jsPI)) (.fin 180)
    let rad2 := jdiv (jmul deg2 (.fin jsPI)) (.fin 180)
    let x1 := jadd cx (jmul r (M.cos rad1))
    let y1 := jadd cy (jmul r (M.sin rad1))
    let x2 := jadd cx (jmul r (M.cos rad2))
    let y2 := jadd cy (jmul r (M.sin rad2))
    let large := if jle (jrem (jadd (jsub deg2 deg1) (.fin 360)) (.fin 360)) (.fin 180)
                 then "0" else "1"
    let d := "M" ++ jnumToString x1 ++ " " ++ jnumToString (jneg y1) ++ "A" ++
      jnumToString r ++ " " ++ jnumToString r ++ " 0 " ++ large ++ " 0 " ++
      jnumToString x2 ++ " " ++ jnumToString (jneg y2)
    .ok (some (jsx "path" (lineAttributes dxf opts entity ++ [("d", .s d)]),
      [x1, x2], [jneg y1, jneg y2])))

/-- The `ELLIPSE` interpreter: a full-turn sweep (within the 1/64 tolerance)
renders an ellipse element; any other sweep is reported unsupported and
omitted. -/
def ELLIPSE (M : JsMath) (dxf : Dxf) (opts : Options) : EntityFn := fun entity _ =>
  match (do
    let rad1 ← dollarNumber entity 41 (some (.fin 0))
    let rad2 ← dollarNumber entity 42 (some (.fin jsTwoPI))
    .ok (rad1, rad2) : Except JsErr (JNum × JNum)) with
  | .error e => ([], .error e)
  | .ok (rad1, rad2) =>
    if nearlyEqual rad1 (.fin 0) ∧ nearlyEqual rad2 (.fin jsTwoPI) then
      ([], do
        let ns ← dollarNumbers entity [10, 20, 11, 21]
        let cx := ns.getD 0 .nan
        let cy := ns.getD 1 .nan
        let majorX := ns.getD 2 .nan
        let majorY := ns.getD 3 .nan
        let majorR := M.hypot majorX majorY
        let minorR ← (dollarNumber entity 40 none).map (fun v => jmul v majorR)
        let radAngleOffset := jneg (M.atan2 majorY majorX)
        let transform :=
          if radAngleOffset.truthy then
            AVal.s ("rotate(" ++
              jnumToString (jdiv (jmul radAngleOffset (.fin 180)) (.fin jsPI)) ++ " " ++
              jnumToString cx ++ " " ++ jnumToString (jneg cy) ++ ")")
          else AVal.undefVal
        .ok (some (jsx "ellipse" (lineAttributes dxf opts entity ++
            [("cx", .n cx), ("cy", .n (jneg cy)), ("rx", .n majorR), ("ry", .n minorR),
             ("transform", transform)]),
          [jsub cx majorR, jadd cx majorR],
          [jsub (jneg cy) minorR, jadd (jneg cy) minorR])))
    else
      ([("Elliptical arc cannot be rendered yet.", [])], .ok none)

/-- The `LEADER` interpreter. -/
def LEADER (dxf : Dxf) (opts : Options) : EntityFn := fun entity _ =>
  let xs := (getGroupCodeValues entity 10).map jsStrToNum
  let ys := (getGroupCodeValues entity 20).map (fun s => jneg (jsStrToNum s))
  ([], .ok (some (jsx "polyline" (commonAttributes entity ++
      [("points", .s (polylinePoints xs ys)),
       ("stroke", .s (color dxf opts entity)),
       ("stroke-dasharray", optStr (strokeDasharrayOf dxf opts entity))]),
    xs, ys)))

/-- Build the path data of the `HATCH` interpreter from the paired boundary
vertex lists. -/
def hatchPathD (x1s y1s x2s y2s : List JNum) : String :=
  (List.range x1s.length).foldl (fun d i =>
    if (x2s.getD i .nan).truthy = false then
      d ++ (if i = 0 then "M" else "L") ++
        jnumToString (x1s.getD i .nan) ++ " " ++ jnumToString (y1s.getD i .nan)
    else if i ≠ 0 ∧ jseq (x1s.getD i .nan) (x2s.getD (i - 1) .nan) ∧
        jseq (y1s.getD i .nan) (y2s.getD (i - 1) .nan) then
      d ++ "L" ++ jnumToString (x2s.getD i .nan) ++ " " ++ jnumToString (y2s.getD i .nan)
    else
      d ++ "M" ++ jnumToString (x1s.getD i .nan) ++ " " ++ jnumToString (y1s.getD i .nan) ++
        "L" ++ jnumToString (x2s.getD i .nan) ++ " " ++ jnumToString (y2s.getD i .nan)) ""

/-- The `HATCH` interpreter: boundary data sliced between the 92 and 97
markers, consecutive edges sharing an endpoint continuing one path. -/
def HATCH (dxf : Dxf) (opts : Options) : EntityFn := fun entity _ =>
  let i92 : ℤ := match entity.findIdx? (fun p => p.1 = 92) with
    | some i => (i : ℤ)
    | none => -1
  let i97 : ℤ := match entity.findIdx? (fun p => p.1 = 97) with
    | some i => (i : ℤ)
    | none => -1
  let paths := jsSlice entity i92 (some i97)
  let x1s := (getGroupCodeValues paths 10).map jsStrToNum
  let y1s := (getGroupCodeValues paths 20).map (fun s => jneg (jsStrToNum s))
  let x2s := (getGroupCodeValues paths 11).map jsStrToNum
  let y2s := (getGroupCodeValues paths 21).map (fun s => jneg (jsStrToNum s))
  ([], .ok (some (jsx "path" (commonAttributes entity ++
      [("d", .s (hatchPathD x1s y1s x2s y2s)),
       ("fill", .s (color dxf opts entity)),
       ("fill-opacity", .s ".3")]),
    x1s ++ x2s, y1s ++ y2s)))

/-- The `SOLID` interpreter: a 3-4 point closed path, a fourth point
coincident with the third dropped. -/
def SOLID (dxf : Dxf) (opts : Options) : EntityFn := fun entity _ =>
  ([], do
    let xs ← dollarNumbers entity [10, 11, 12, 13]
    let ys ← dollarNegates entity [20, 21, 22, 23]
    let x1 := xs.getD 0 .nan
    let x2 := xs.getD 1 .nan
    let x3 := xs.getD 2 .nan
    let x4 := xs.getD 3 .nan
    let y1 := ys.getD 0 .nan
    let y2 := ys.getD 1 .nan
    let y3 := ys.getD 2 .nan
    let y4 := ys.getD 3 .nan
    let d := "M" ++ jnumToString x1 ++ " " ++ jnumToString y1 ++
      "L" ++ jnumToString x2 ++ " " ++ jnumToString y2 ++
      "L" ++ jnumToString x3 ++ " " ++ jnumToString y3 ++
      (if jseq x3 x4 = false ∨ jseq y3 y4 = false then
        "L" ++ jnumToString x4 ++ " " ++ jnumToString y4
       else "") ++ "Z"
    .ok (some (jsx "path" (commonAttributes entity ++
        [("d", .s d), ("fill", .s (color dxf opts entity))]),
      xs, ys)))

/-- The `TEXT` interpreter. -/
def TEXT (dxf : Dxf) (opts : Options) : EntityFn := fun entity _ =>
  ([], do
    let ns ← dollarNumbers entity [10, 40]
    let ng ← dollarNegates entity [20, 50]
    let x := ns.getD 0 .nan
    let h := ns.getD 1 .nan
    let y := ng.getD 0 .nan
    let angle := ng.getD 1 .nan
    let contents := opts.parseDxfTextContent ((getGroupCodeValue entity 1).getD "")
    let one := contents.getD 0 ⟨"", false, false, false⟩
    .ok (some (jsx "text" (commonAttributes entity ++
        [("x", .n x), ("y", .n y),
         ("fill", .s (color dxf opts entity)),
         ("font-size", .n h),
         ("dominant-baseline", optStr (TEXT_dominantBaseline (dollarTrim entity 73))),
         ("text-anchor", optStr (TEXT_textAnchor (dollarTrim entity 72))),
         ("transform",
           if angle.truthy then
             .s ("rotate(" ++ jnumToString angle ++ " " ++ jnumToString x ++ " " ++
               jnumToString y ++ ")")
           else .n angle),
         ("text-decoration",
           if contents.length = 1 then .s (textDecorations one) else .undefVal),
         ("children",
           if contents.length = 1 then .s one.text
           else .arr (contents.map (fun content => jsx "tspan"
             [("text-decoration", .s (textDecorations content)),
              ("children", .s content.text)])))]),
      [x, jadd x (jmul h (.fin (contents.length : JsRat)))],
      [y, jadd y h])))

/-- The `MTEXT` interpreter. -/
def MTEXT (M : JsMath) (dxf : Dxf) (opts : Options) : EntityFn := fun entity _ =>
  ([], do
    let ns ← dollarNumbers entity [10, 40]
    let x := ns.getD 0 .nan
    let h := ns.getD 1 .nan
    let y ← (dollarNumber entity 20 none).map jneg
    let angle ← MTEXT_angle M entity
    let ap := MTEXT_attachmentPoint (dollarTrim entity 71)
    let contents := String.join (getGroupCodeValues entity 3) ++
      ((getGroupCodeValue entity 1).getD "")
    .ok (some (jsx "text" (commonAttributes entity ++
        [("x", .n x), ("y", .n y),
         ("fill", .s (color dxf opts entity)),
         ("font-size", .n h),
         ("dominant-baseline", optStr ap.1),
         ("text-anchor", optStr ap.2),
         ("transform",
           if angle.truthy then
             .s ("rotate(" ++ jnumToString (jneg angle) ++ " " ++ jnumToString x ++ " " ++
               jnumToString y ++ ")")
           else .undefVal),
         ("children", .s (MTEXT_contentsList (some opts) (opts.parseDxfMTextContent contents)))]),
      [x, jadd x (jmul h (.fin (contents.length : JsRat)))],
      [y, jadd y h])))

/-- The shared tail of the `DIMENSION` interpreter: format the measurement,
render the text element and wrap everything in the styled group. -/
def DIMENSION_tail (dxf : Dxf) (opts : Options) (entity : Record)
    (dimStyles : DimStyleVals) (tx ty measurement : JNum) (lineElements : String)
    (dominantBaseline textAnchor : String) (angleOpt : Option JNum)
    (xs ys : List JNum) : InterpResult :=
  match dimensionValueToMText measurement entity dimStyles with
  | .error e => ([], .error e)
  | .ok mtext =>
    let h := jmul dimStyles.DIMTXT dimStyles.DIMSCALE
    let textColor := dimStyles.DIMCLRT
    let fill :=
      if textColor.isNan then color dxf opts entity
      else if jseq textColor (.fin 0) then "currentColor"
      else opts.resolveColorIndex textColor
    let textElement := jsx "text"
      [("x", .n tx), ("y", .n ty), ("fill", .s fill), ("font-size", .n h),
       ("dominant-baseline", .s dominantBaseline), ("text-anchor", .s textAnchor),
       ("transform",
         match angleOpt with
         | some a =>
             if a.truthy then
               .s ("rotate(" ++ jnumToString a ++ " " ++ jnumToString tx ++ " " ++
                 jnumToString ty ++ ")")
             else .n a
         | none => .undefVal),
       ("children", .s (MTEXT_contentsList (some opts) (opts.parseDxfMTextContent mtext)))]
    ([], .ok (some (jsx "g" (commonAttributes entity ++
        [("color", .s (color dxf opts entity)),
         ("stroke-dasharray", optStr (strokeDasharrayOf dxf opts entity)),
         ("style", optStr (extrusionStyle entity)),
         ("children", .s (lineElements ++ textElement))]),
      xs, ys)))

/-- The `DIMENSION` interpreter: sub-type from the low three bits of the
type word; angular and unknown sub-types are reported and omitted. -/
def DIMENSION (M : JsMath) (dxf : Dxf) (opts : Options) : EntityFn := fun entity _ =>
  match collectDimensionStyles dxf entity with
  | .error e => ([], .error e)
  | .ok dimStyles =>
    match (do
      let tx ← dollarNumber entity 11 none
      let ty ← (dollarNumber entity 21 none).map jneg
      let dimensionType ← dollarNumber entity 70 (some (.fin 0))
      .ok (tx, ty, dimensionType) : Except JsErr (JNum × JNum × JNum)) with
    | .error e => ([], .error e)
    | .ok (tx, ty, dimensionType) =>
      let t7 := jsAnd7 dimensionType
      if t7 = 0 ∨ t7 = 1 then
        match (do
          let xs3 ← dollarNumbers entity [10, 13, 14]
          let ys3 ← dollarNegates entity [20, 23, 24]
          let a ← dollarNumber entity 50 (some (.fin 0))
          .ok (xs3, ys3, a) : Except JsErr (List JNum × List JNum × JNum)) with
        | .error e => ([], .error e)
        | .ok (xs3, ys3, a) =>
          let x0 := xs3.getD 0 .nan
          let x1 := xs3.getD 1 .nan
          let x2 := xs3.getD 2 .nan
          let y0 := ys3.getD 0 .nan
          let y1 := ys3.getD 1 .nan
          let y2 := ys3.getD 2 .nan
          let neg := jneg a
          let angle := jsMathRound (if neg.truthy then neg else .fin 0)
          if jseq (jrem angle (.fin 180)) (.fin 0) then
            DIMENSION_tail dxf opts entity dimStyles tx ty
              (jabs (jsub x1 x2))
              (jsx "path" [("stroke", .s "currentColor"),
                ("d", .s ("M" ++ jnumToString x1 ++ " " ++ jnumToString y1 ++
                  "L" ++ jnumToString x1 ++ " " ++ jnumToString y0 ++
                  "L" ++ jnumToString x2 ++ " " ++ jnumToString y0 ++
                  "L" ++ jnumToString x2 ++ " " ++ jnumToString y2))])
              "text-after-edge" "middle" (some (.fin 0))
              [tx, x1, x2] [ty, y1, y2]
          else
            DIMENSION_tail dxf opts entity dimStyles tx ty
              (jabs (jsub y1 y2))
              (jsx "path" [("stroke", .s "currentColor"),
                ("d", .s ("M" ++ jnumToString x1 ++ " " ++ jnumToString y1 ++
                  "L" ++ jnumToString x0 ++ " " ++ jnumToString y1 ++
                  "L" ++ jnumToString x0 ++ " " ++ jnumToString y2 ++
                  "L" ++ jnumToString x2 ++ " " ++ jnumToString y2))])
              "text-after-edge" "middle" (some angle)
              [tx, x1, x2] [ty, y1, y2]
      else if t7 = 2 ∨ t7 = 5 then
        ([("Angular dimension cannot be rendered yet.", [entity])], .ok none)
      else if t7 = 3 ∨ t7 = 4 then
        match (do
          let xs2 ← dollarNumbers entity [10, 15]
          let ys2 ← dollarNegates entity [20, 25]
          .ok (xs2, ys2) : Except JsErr (List JNum × List JNum)) with
        | .error e => ([], .error e)
        | .ok (xs2, ys2) =>
          let x0 := xs2.getD 0 .nan
          let x1 := xs2.getD 1 .nan
          let y0 := ys2.getD 0 .nan
          let y1 := ys2.getD 1 .nan
          DIMENSION_tail dxf opts entity dimStyles tx ty
            (M.hypot (jsub x0 x1) (jsub y0 y1))
            (jsx "path" [("stroke", .s "currentColor"),
              ("d", .s ("M" ++ jnumToString x1 ++ " " ++ jnumToString y1 ++
                "L" ++ jnumToString tx ++ " " ++ jnumToString ty))])
            "text-after-edge" "middle" none
            [tx, x0, x1] [ty, y0, y1]
      else if t7 = 6 then
        match (do
          let xs2 ← dollarNumbers entity [13, 14]
          let ys2 ← dollarNegates entity [23, 24]
          .ok (xs2, ys2) : Except JsErr (List JNum × List JNum)) with
        | .error e => ([], .error e)
        | .ok (xs2, ys2) =>
          let x1 := xs2.getD 0 .nan
          let x2 := xs2.getD 1 .nan
          let y1 := ys2.getD 0 .nan
          let y2 := ys2.getD 1 .nan
          if jsBit6 dimensionType then
            match dollarNumber entity 10 none with
            | .error e => ([], .error e)
            | .ok x0 =>
              DIMENSION_tail dxf opts entity dimStyles tx ty
                (jabs (jsub x0 x1))
                (jsx "path" [("stroke", .s "currentColor"),
                  ("d", .s ("M" ++ jnumToString x1 ++ " " ++ jnumToString y1 ++
                    "L" ++ jnumToString x1 ++ " " ++ jnumToString y2 ++
                    "L" ++ jnumToString x2 ++ " " ++ jnumToString y2 ++
                    "L" ++ jnumToString tx ++ " " ++ jnumToString ty))])
                "central" "middle" (some (.fin (-90)))
                [tx, x1, x2] [ty, y1, y2]
          else
            match (dollarNumber entity 20 none).map jneg with
            | .error e => ([], .error e)
            | .ok y0 =>
              DIMENSION_tail dxf opts entity dimStyles tx ty
                (jabs (jsub y0 y1))
                (jsx "path" [("stroke", .s "currentColor"),
                  ("d", .s ("M" ++ jnumToString x1 ++ " " ++ jnumToString y1 ++
                    "L" ++ jnumToString x2 ++ " " ++ jnumToString y1 ++
                    "L" ++ jnumToString x2 ++ " " ++ jnumToString y2 ++
                    "L" ++ jnumToString tx ++ " " ++ jnumToString ty))])
                "central" "middle" none
                [tx, x1, x2] [ty, y1, y2]
      else
        ([("Unknown dimension type.", [entity])], .ok none)

/-- Cumulative offsets `[0, s1, s1+s2, ...]` from a size list (the
`reduce` in `ACAD_TABLE`). -/
def jscan (l : List JNum) : List JNum :=
  (l.foldl (fun (acc : List JNum × JNum) v =>
    let t := jadd acc.2 v
    (acc.1 ++ [t], t)) ([.fin 0], .fin 0)).1

/-- The cell slices of an `ACAD_TABLE` record: boundaries at each 171 group
after the first, closed by a final slice to the end. -/
def acadTableCells (entity : Record) : List Record :=
  let idx0 : ℤ := match entity.findIdx? (fun p => p.1 = 171) with
    | some i => (i : ℤ)
    | none => -1
  let len := entity.length
  let step := ((List.range len).drop (idx0 + 1).toNat).foldl
    (fun (acc : List Record × ℤ) i =>
      match entity.get? i with
      | some p => if p.1 = 171 then (acc.1 ++ [jsSlice entity acc.2 (some (i : ℤ))], (i : ℤ))
                  else acc
      | none => acc)
    ([], idx0)
  step.1 ++ [jsSlice entity step.2 (some (len : ℤ))]

/-- The `ACAD_TABLE` interpreter. -/
def ACAD_TABLE (dxf : Dxf) (opts : Options) : EntityFn := fun entity _ =>
  let cells := acadTableCells entity
  let ys := jscan ((getGroupCodeValues entity 141).map jsStrToNum)
  let xs := jscan ((getGroupCodeValues entity 142).map jsStrToNum)
  let lineColor := color dxf opts entity
  let textColor := opts.resolveColorIndex (jsToNum (getGroupCodeValue entity 64))
  let xLast := xs.getLast?.getD (.fin 0)
  let s0 := String.join (ys.map (fun y => jsx "line"
    [("stroke", .s lineColor), ("x1", .s "0"), ("y1", .n y),
     ("x2", .n xLast), ("y2", .n y)]))
  let cf := cells.foldl (fun (acc : String × ℕ × ℕ × List Diag) cell =>
      let xi := acc.2.1
      let yi := acc.2.2.1
      let cellColor := jsToNum (getGroupCodeValue cell 64)
      let s1 :=
        if (jsToNum (getGroupCodeValue cell 173)).truthy = false then
          acc.1 ++ jsx "line"
            [("x1", optN (xs.get? xi)), ("y1", optN (ys.get? yi)),
             ("x2", optN (xs.get? xi)), ("y2", optN (ys.get? (yi + 1))),
             ("stroke", .s lineColor)]
        else acc.1
      let sd :=
        if dollarTrim cell 171 = some "2" then
          (s1, acc.2.2.2 ++
            [("Table cell type \"block\" cannot be rendered yet.", [entity, cell])])
        else
          (s1 ++ jsx "text"
            [("x", optN (xs.get? xi)), ("y", optN (ys.get? yi)),
             ("fill", .s (if cellColor.isNan = false then opts.resolveColorIndex cellColor
               else textColor)),
             ("children", .s (MTEXT_contentsList none
               (opts.parseDxfMTextContent ((getGroupCodeValue cell 1).getD ""))))],
           acc.2.2.2)
      if xi + 1 = xs.length - 1 then (sd.1, 0, yi + 1, sd.2)
      else (sd.1, xi + 1, yi, sd.2))
    (s0, 0, 0, [])
  let s2 := cf.1 ++ jsx "line"
    [("x1", .n xLast), ("y1", .s "0"), ("x2", .n xLast),
     ("y2", .n (ys.getLast?.getD (.fin 0))), ("stroke", .s lineColor)]
  match (do
    let x ← dollarNumber entity 10 none
    let y ← (dollarNumber entity 20 none).map jneg
    .ok (x, y) : Except JsErr (JNum × JNum)) with
  | .error e => (cf.2.2.2, .error e)
  | .ok (x, y) =>
    (cf.2.2.2, .ok (some (jsx "g" (commonAttributes entity ++
        [("font-size", optStr (dollarTrim entity 140)),
         ("dominant-baseline", .s "text-before-edge"),
         ("transform", .s ("translate(" ++ jnumToString x ++ "," ++ jnumToString y ++ ")")),
         ("children", .s s2)]),
      xs.map (fun v => jadd v x), ys.map (fun v => jadd v y))))

/-- The `INSERT` interpreter, parameterized over the recursive scene
assembler it re-enters for the referenced block. -/
def INSERT (dxf : Dxf) (opts : Options)
    (recurse : Option (List Record) → (String × BBox) × List Diag) : EntityFn :=
  fun entity _ =>
  match (do
    let x ← dollarNumber entity 10 (some (.fin 0))
    let y ← (dollarNumber entity 20 (some (.fin 0))).map jneg
    let rotate ← (dollarNumber entity 50 none).map jneg
    let xs0 ← dollarNumber entity 41 (some (.fin 1))
    let ys0 ← dollarNumber entity 42 (some (.fin 1))
    .ok (x, y, rotate, xs0, ys0) : Except JsErr (JNum × JNum × JNum × JNum × JNum)) with
  | .error e => ([], .error e)
  | .ok (x, y, rotate, xs0, ys0) =>
    let xscale := if xs0.truthy then xs0 else .fin 1
    let yscale := if ys0.truthy then ys0 else .fin 1
    let parts := [
      (if x.truthy ∨ y.truthy then
        "translate(" ++ jnumToString x ++ "," ++ jnumToString y ++ ")" else ""),
      (if jseq xscale (.fin 1) = false ∨ jseq yscale (.fin 1) = false then
        "scale(" ++ jnumToString xscale ++ "," ++ jnumToString yscale ++ ")" else ""),
      (if rotate.truthy then "rotate(" ++ jnumToString rotate ++ ")" else "")]
    let transform := strIntercalate " " (parts.filter (fun p => p ≠ ""))
    let rawBlock := dxf.BLOCKS.bind (fun bs => (getGroupCodeValue entity 2).bind
      (fun name => (bs.find? (fun b => b.1 = name)).map (fun b => b.2)))
    let block := rawBlock.map (fun bl =>
      jsSlice bl (if getGroupCodeValueO (bl.get? 0) 0 = some "BLOCK" then 1 else 0)
        (if getGroupCodeValueO bl.getLast? 0 = some "ENDBLK" then some (-1) else none))
    let res := recurse block
    let bbox := res.1.2
    (res.2, .ok (some (jsx "g" (commonAttributes entity ++
        [("color", optStr (underscoreColor dxf opts entity)),
         ("transform", .s transform),
         ("children", .s res.1.1)]),
      [jadd x (jmul bbox.x xscale), jadd x (jmul (jadd bbox.x bbox.w) xscale)],
      [jadd y (jmul bbox.y yscale), jadd y (jmul (jadd bbox.y bbox.h) yscale)])))

/-- Model of `createEntitySvgMap` from the source, with the recursive entry point of
the scene assembler passed in explicitly. -/
def entitySvgMapF (M : JsMath) (dxf : Dxf) (opts : Options)
    (recurse : Option (List Record) → (String × BBox) × List Diag)
    (ty : String) : Option EntityFn :=
  if ty = "POINT" then some (fun _ _ => ([], .ok none))
  else if ty = "LINE" then some (LINE dxf opts)
  else if ty = "POLYLINE" then some (POLYLINE dxf opts)
  else if ty = "LWPOLYLINE" then some (LWPOLYLINE dxf opts)
  else if ty = "CIRCLE" then some (CIRCLE dxf opts)
  else if ty = "ARC" then some (ARC M dxf opts)
  else if ty = "ELLIPSE" then some (ELLIPSE M dxf opts)
  else if ty = "LEADER" then some (LEADER dxf opts)
  else if ty = "HATCH" then some (HATCH dxf opts)
  else if ty = "SOLID" then some (SOLID dxf opts)
  else if ty = "TEXT" then some (TEXT dxf opts)
  else if ty = "MTEXT" then some (MTEXT M dxf opts)
  else if ty = "DIMENSION" then some (DIMENSION M dxf opts)
  else if ty = "ACAD_TABLE" then some (ACAD_TABLE dxf opts)
  else if ty = "INSERT" then some (INSERT dxf opts recurse)
  else none

/-- Collect the run of VERTEX sub-records following a dispatched entity
(first component) and the remaining records (second component). -/
def collectVertices : List Record → List Record × List Record
  | [] => ([], [])
  | r :: rest =>
      if getGroupCodeValue r 0 = some "VERTEX" then
        (r :: (collectVertices rest).1, (collectVertices rest).2)
      else ([], r :: rest)

/-- After a non-empty vertex run, an immediately following SEQEND record is
consumed. -/
def seqendTrim (p : List Record × List Record) : List Record :=
  if p.1.length ≠ 0 ∧ getGroupCodeValueO (p.2.get? 0) 0 = some "SEQEND" then p.2.tail
  else p.2

/-- The grouping pass of the scene assembler loop, structurally recursive
on a fuel that `groupEntities` instantiates with the list length (which
`collectVertices_length` and `seqendTrim_length` show is always enough):
each record with a truthy type grabs its following VERTEX run (and an
optional SEQEND); a record with a falsy type occupies a unit of its own
that the dispatch will skip. -/
def groupEntitiesAux : ℕ → List Record → List (Record × List Record)
  | 0, _ => []
  | _ + 1, [] => []
  | fuel + 1, e :: rest =>
      if optTruthy (getGroupCodeValue e 0) then
        (e, (collectVertices rest).1) ::
          groupEntitiesAux fuel (seqendTrim (collectVertices rest))
      else
        (e, []) :: groupEntitiesAux fuel rest

/-- The grouping pass of the scene assembler loop. -/
def groupEntities (l : List Record) : List (Record × List Record) :=
  groupEntitiesAux l.length l

/-- The running state of the scene assembler. -/
structure SceneAcc where
  svg : String
  minX : JNum
  maxX : JNum
  minY : JNum
  maxY : JNum
  diags : List Diag
deriving Repr

/-- What one grouped unit contributes: svg text, finite x and y coordinates
for the bounding box, and diagnostics.  A unit with a falsy type contributes
nothing; an unknown type or a caught error contributes a diagnostic; a
successful interpretation contributes its svg and its finite coordinates. -/
def unitOut (emap : String → Option EntityFn) (u : Record × List Record) :
    String × List JNum × List JNum × List Diag :=
  match getGroupCodeValue u.1 0 with
  | none => ("", [], [], [])
  | some ty =>
    if ty = "" then ("", [], [], [])
    else
      match emap ty with
      | none => ("", [], [], [("Unknown entity type: " ++ ty, [u.1])])
      | some f =>
        match f u.1 u.2 with
        | (ds, .error err) =>
            ("", [], [], ds ++ [("Error occurred: " ++ jsErrToString err, [u.1])])
        | (ds, .ok none) => ("", [], [], ds)
        | (ds, .ok (some (s, xs, ys))) =>
            (s, xs.filter JNum.isFin, ys.filter JNum.isFin, ds)

/-- Fold one unit into the assembler state. -/
def stepUnit (emap : String → Option EntityFn) (acc : SceneAcc) (u : Record × List Record) :
    SceneAcc :=
  let o := unitOut emap u
  ⟨acc.svg ++ o.1,
   o.2.1.foldl jmin acc.minX,
   o.2.1.foldl jmax acc.maxX,
   o.2.2.1.foldl jmin acc.minY,
   o.2.2.1.foldl jmax acc.maxY,
   acc.diags ++ o.2.2.2⟩

/-- Fold a unit list into the assembler state. -/
def assembleUnits (emap : String → Option EntityFn) (us : List (Record × List Record))
    (acc : SceneAcc) : SceneAcc :=
  us.foldl (stepUnit emap) acc

/-- The initial assembler state. -/
def initAcc : SceneAcc := ⟨"", .posInf, .negInf, .posInf, .negInf, []⟩

/-- Model of `entitiesSvg` from the source, given the dispatch map: group, dispatch,
accumulate svg text and the running min/max box over finite coordinates. -/
def entitiesSvgWith (emap : String → Option EntityFn) (entities : Option (List Record)) :
    (String × BBox) × List Diag :=
  let a := assembleUnits emap
    (match entities with
     | some es => groupEntities es
     | none => []) initAcc
  ((a.svg, ⟨a.minX, a.minY, jsub a.maxX a.minX, jsub a.maxY a.minY⟩), a.diags)

/-- Model of `entitiesSvg` from the source, with a fuel bound on block-instancing
depth (the JS module recurses without bound on cyclic block references;
every theorem below supplies sufficient fuel for the documents involved). -/
def entitiesSvgFuel (M : JsMath) (dxf : Dxf) (opts : Options) :
    ℕ → Option (List Record) → (String × BBox) × List Diag
  | 0, _ => (("", ⟨.posInf, .posInf, .negInf, .negInf⟩), [])
  | n + 1, ents =>
      entitiesSvgWith (entitySvgMapF M dxf opts (entitiesSvgFuel M dxf opts n)) ents

/-- Model of `createSvgContents` from the source (option resolution against the
defaults happens outside the model: an `Options` value is already total). -/
def createSvgContents (M : JsMath) (fuel : ℕ) (dxf : Dxf) (opts : Options) :
    (String × BBox) × List Diag :=
  entitiesSvgFuel M dxf opts fuel dxf.ENTITIES

/-- Model of `createSvgString` from the source: the root svg element sized by the
bounding box. -/
def createSvgString (M : JsMath) (fuel : ℕ) (dxf : Dxf) (opts : Options) :
    String × List Diag :=
  let r := createSvgContents M fuel dxf opts
  (jsx "svg"
    [("xmlns", .s "http://www.w3.org/2000/svg"),
     ("viewBox", .s (jnumToString r.1.2.x ++ " " ++ jnumToString r.1.2.y ++ " " ++
       jnumToString r.1.2.w ++ " " ++ jnumToString r.1.2.h)),
     ("width", .n r.1.2.w),
     ("height", .n r.1.2.h),
     ("children", .s r.1.1)],
   r.2)

/-! ### Concrete instances used by the closed theorems below -/

/-- A concrete instantiation of the abstracted math library.  Its values on
the rays used by the closed theorems agree with the real functions
(`atan2(0, x) = 0` for positive `x`); elsewhere its value is irrelevant to
the statements proved with it. -/
def M0 : JsMath :=
  ⟨fun _ _ => .fin 0, fun _ _ => .fin 0, fun _ => .fin 1, fun _ => .fin 0⟩

/-- A concrete configuration: neutral color resolution, a single-run text
collaborator, an empty rich-text collaborator, no font hook. -/
def opts0 : Options :=
  ⟨fun _ => "#888", fun s => [⟨s, false, false, false⟩], fun _ => [], none⟩

/-- A document with no named collections at all. -/
def dxfEmpty : Dxf := ⟨none, none, none, none⟩

/-- A line record whose group 10 value violates the 1e6 sanity bound. -/
def badLineRec : Record := [(0, "LINE"), (10, "2000000"), (20, "0"), (11, "1"), (21, "0")]

/-- A well-formed circle record. -/
def circleRec : Record := [(0, "CIRCLE"), (10, "5"), (20, "5"), (40, "2")]

/-- A document holding the corrupt line followed by the circle. -/
def dxfBad : Dxf := ⟨none, none, none, some [badLineRec, circleRec]⟩

/-- A block with a single line from (0,0) to (1,0). -/
def blockB : List Record := [[(0, "LINE"), (10, "0"), (20, "0"), (11, "1"), (21, "0")]]

/-- An insert of block B at (100,0) with scale 2. -/
def insertRec : Record := [(0, "INSERT"), (2, "B"), (10, "100"), (20, "0"), (41, "2"), (42, "2")]

/-- The document of the insert scenario. -/
def dxfIns : Dxf := ⟨none, none, some [("B", blockB)], some [insertRec]⟩

/-- An insert record naming a block absent from the mapping. -/
def insertMissingRec : Record := [(0, "INSERT"), (2, "B")]

/-- A document whose block mapping exists but holds no entry. -/
def dxfNoBlocks : Dxf := ⟨none, none, some [], none⟩

/-- A layer table with one layer "L" of color index 1. -/
def dxfLayer : Dxf :=
  ⟨none, some ⟨some [[(0, "LAYER"), (2, "L"), (62, "1")]], none, none⟩, none, none⟩

/-- A configuration resolving color index 1 to "red". -/
def optsRed : Options :=
  ⟨fun n => if jseq n (.fin 1) then "red" else "#888", fun _ => [], fun _ => [], none⟩

/-- Dimension styles with tolerance enabled, plus 5, minus 0. -/
def stylesTol50 : DimStyleVals := ⟨.fin 1, .fin 5, .fin 0, .fin 1, .fin 1, .fin 1, .nan, .fin 4⟩

/-- An ellipse record with a near-zero but non-zero start parameter (a
partial sweep inside the 1/64 tolerance). -/
def ellipseNearRec : Record :=
  [(0, "ELLIPSE"), (41, "0.01"), (10, "0"), (20, "0"), (11, "5"), (21, "0"), (40, "0.5")]

/-- An ellipse record whose start parameter 1 is outside the tolerance. -/
def ellipseFarRec : Record :=
  [(0, "ELLIPSE"), (41, "1"), (10, "0"), (20, "0"), (11, "5"), (21, "0"), (40, "0.5")]

/-! ### Decomposition of the scene assembler fold -/

/-- Concatenation of a string list (structural, for the fold lemmas). -/
def strJoin : List String → String
  | [] => ""
  | s :: rest => s ++ strJoin rest

/-- The svg text contributed by a unit list. -/
def unitsSvg (emap : String → Option EntityFn) (us : List (Record × List Record)) : String :=
  strJoin (us.map (fun u => (unitOut emap u).1))

/-- The finite x coordinates contributed by a unit list. -/
def unitsXs (emap : String → Option EntityFn) (us : List (Record × List Record)) : List JNum :=
  (us.map (fun u => (unitOut emap u).2.1)).flatten

/-- The finite y coordinates contributed by a unit list. -/
def unitsYs (emap : String → Option EntityFn) (us : List (Record × List Record)) : List JNum :=
  (us.map (fun u => (unitOut emap u).2.2.1)).flatten

/-- The diagnostics contributed by a unit list. -/
def unitsDiags (emap : String → Option EntityFn) (us : List (Record × List Record)) : List Diag :=
  (us.map (fun u => (unitOut emap u).2.2.2)).flatten

/-- The scene built from a unit list (the bodies of `entitiesSvgWith` after
grouping). -/
def entitiesSvgUnits (emap : String → Option EntityFn)
    (us : List (Record × List Record)) : (String × BBox) × List Diag :=
  let a := assembleUnits emap us initAcc
  ((a.svg, ⟨a.minX, a.minY, jsub a.maxX a.minX, jsub a.maxY a.minY⟩), a.diags)

/-- The coordinate extents an interpreter result reports (none when the
entity was omitted or faulted). -/
def interpExtents (r : InterpResult) : Option (List JNum × List JNum) :=
  match r.2 with
  | .ok (some t) => some (t.2.1, t.2.2)
  | _ => none

theorem collectVertices_length (l : List Record) :
    (collectVertices l).2.length ≤ l.length := by
  induction l with
  | nil => simp [collectVertices]
  | cons r rest ih =>
      simp only [collectVertices]
      split
      · exact Nat.le_succ_of_le ih
      · simp

theorem seqendTrim_length (p : List Record × List Record) :
    (seqendTrim p).length ≤ p.2.length := by
  unfold seqendTrim
  split
  · simp [Nat.sub_le]
  · exact Nat.le_refl _

theorem strJoin_append (l1 l2 : List String) :
    strJoin (l1 ++ l2) = strJoin l1 ++ strJoin l2 := by
  induction l1 with
  | nil => simp [strJoin]
  | cons a l ih => simp [strJoin, ih, String.append_assoc]

/-- The assembler fold is componentwise accumulative: svg and diagnostics
concatenate, the box folds min/max over the contributed coordinates. -/
theorem assembleUnits_eq (emap : String → Option EntityFn)
    (us : List (Record × List Record)) (acc : SceneAcc) :
    assembleUnits emap us acc =
      ⟨acc.svg ++ unitsSvg emap us,
       (unitsXs emap us).foldl jmin acc.minX,
       (unitsXs emap us).foldl jmax acc.maxX,
       (unitsYs emap us).foldl jmin acc.minY,
       (unitsYs emap us).foldl jmax acc.maxY,
       acc.diags ++ unitsDiags emap us⟩ := by
  induction us generalizing acc with
  | nil => simp [assembleUnits, unitsSvg, unitsXs, unitsYs, unitsDiags, strJoin]
  | cons u rest ih =>
      show assembleUnits emap rest (stepUnit emap acc u) = _
      rw [ih]
      simp [stepUnit, unitsSvg, unitsXs, unitsYs, unitsDiags, strJoin,
        String.append_assoc, List.foldl_append, List.append_assoc]


theorem entitiesSvgWith_units (emap : String → Option EntityFn) (es : List Record) :
    entitiesSvgWith emap (some es) = entitiesSvgUnits emap (groupEntities es) := rfl

theorem unitsSvg_append (emap : String → Option EntityFn)
    (l1 l2 : List (Record × List Record)) :
    unitsSvg emap (l1 ++ l2) = unitsSvg emap l1 ++ unitsSvg emap l2 := by
  simp [unitsSvg, strJoin_append]

theorem unitsSvg_cons (emap : String → Option EntityFn) (u : Record × List Record)
    (l : List (Record × List Record)) :
    unitsSvg emap (u :: l) = (unitOut emap u).1 ++ unitsSvg emap l := rfl

theorem unitsXs_append (emap : String → Option EntityFn)
    (l1 l2 : List (Record × List Record)) :
    unitsXs emap (l1 ++ l2) = unitsXs emap l1 ++ unitsXs emap l2 := by
  simp [unitsXs]

theorem unitsXs_cons (emap : String → Option EntityFn) (u : Record × List Record)
    (l : List (Record × List Record)) :
    unitsXs emap (u :: l) = (unitOut emap u).2.1 ++ unitsXs emap l := rfl

theorem unitsYs_append (emap : String → Option EntityFn)
    (l1 l2 : List (Record × List Record)) :
    unitsYs emap (l1 ++ l2) = unitsYs emap l1 ++ unitsYs emap l2 := by
  simp [unitsYs]

theorem unitsYs_cons (emap : String → Option EntityFn) (u : Record × List Record)
    (l : List (Record × List Record)) :
    unitsYs emap (u :: l) = (unitOut emap u).2.2.1 ++ unitsYs emap l := rfl

theorem unitsDiags_append (emap : String → Option EntityFn)
    (l1 l2 : List (Record × List Record)) :
    unitsDiags emap (l1 ++ l2) = unitsDiags emap l1 ++ unitsDiags emap l2 := by
  simp [unitsDiags]

theorem unitsDiags_cons (emap : String → Option EntityFn) (u : Record × List Record)
    (l : List (Record × List Record)) :
    unitsDiags emap (u :: l) = (unitOut emap u).2.2.2 ++ unitsDiags emap l := rfl

/-- A faulting unit contributes nothing but its diagnostics and the caught
error report carrying its record. -/
theorem unitOut_error (emap : String → Option EntityFn) (u : Record × List Record)
    (ty : String) (f : EntityFn) (ds : List Diag) (err : JsErr)
    (hty : getGroupCodeValue u.1 0 = some ty) (hne : ty ≠ "")
    (hf : emap ty = some f) (herr : f u.1 u.2 = (ds, .error err)) :
    unitOut emap u = ("", [], [], ds ++ [("Error occurred: " ++ jsErrToString err, [u.1])]) := by
  simp [unitOut, hty, hne, hf, herr]

/-- C1: a fault raised while interpreting one entity is caught by the scene
assembler and reported, with the offending record, through the diagnostic
sink; only that entity is omitted — the svg text and the bounding box equal
those of the unit list with the faulting unit removed (every other entity
is still dispatched), and the faulting entity contributes no coordinates. -/
theorem claim_C1_fault_isolation
    (M : JsMath) (dxf : Dxf) (opts : Options) (n : ℕ)
    (es : List Record) (pre post : List (Record × List Record))
    (u : Record × List Record) (ty : String) (f : EntityFn)
    (ds : List Diag) (err : JsErr)
    (hsplit : groupEntities es = pre ++ u :: post)
    (hty : getGroupCodeValue u.1 0 = some ty) (hne : ty ≠ "")
    (hf : entitySvgMapF M dxf opts (entitiesSvgFuel M dxf opts n) ty = some f)
    (herr : f u.1 u.2 = (ds, .error err)) :
    entitiesSvgWith (entitySvgMapF M dxf opts (entitiesSvgFuel M dxf opts n)) (some es) =
      ((entitiesSvgUnits (entitySvgMapF M dxf opts (entitiesSvgFuel M dxf opts n))
          (pre ++ post)).1,
       unitsDiags (entitySvgMapF M dxf opts (entitiesSvgFuel M dxf opts n)) pre ++
         (ds ++ [("Error occurred: " ++ jsErrToString err, [u.1])]) ++
         unitsDiags (entitySvgMapF M dxf opts (entitiesSvgFuel M dxf opts n)) post) := by
  set emap := entitySvgMapF M dxf opts (entitiesSvgFuel M dxf opts n) with hemap
  have hu : unitOut emap u =
      ("", [], [], ds ++ [("Error occurred: " ++ jsErrToString err, [u.1])]) :=
    unitOut_error emap u ty f ds err hty hne hf herr
  rw [entitiesSvgWith_units, hsplit]
  unfold entitiesSvgUnits
  rw [assembleUnits_eq, assembleUnits_eq]
  have hsvg : unitsSvg emap (pre ++ u :: post) = unitsSvg emap (pre ++ post) := by
    simp [unitsSvg_append, unitsSvg_cons, hu]
  have hxs : unitsXs emap (pre ++ u :: post) = unitsXs emap (pre ++ post) := by
    simp [unitsXs_append, unitsXs_cons, hu]
  have hys : unitsYs emap (pre ++ u :: post) = unitsYs emap (pre ++ post) := by
    simp [unitsYs_append, unitsYs_cons, hu]
  have hds : unitsDiags emap (pre ++ u :: post) =
      unitsDiags emap pre ++
        (ds ++ [("Error occurred: " ++ jsErrToString err, [u.1])]) ++
        unitsDiags emap post := by
    simp [unitsDiags_append, unitsDiags_cons, hu]
  rw [hsvg, hxs, hys, hds]
  simp [initAcc]

/-- Witness for C1 at a concrete document: a line whose group 10 value
breaks the sanity bound faults, is reported with its record, and the circle
after it is still rendered. -/
theorem claim_C1_fault_isolation_witness :
    entitiesSvgWith (entitySvgMapF M0 dxfBad opts0 (entitiesSvgFuel M0 dxfBad opts0 0))
        (some [badLineRec, circleRec]) =
      ((entitiesSvgUnits (entitySvgMapF M0 dxfBad opts0 (entitiesSvgFuel M0 dxfBad opts0 0))
          ([] ++ [(circleRec, ([] : List Record))])).1,
       unitsDiags (entitySvgMapF M0 dxfBad opts0 (entitiesSvgFuel M0 dxfBad opts0 0)) [] ++
         (([] : List Diag) ++
           [("Error occurred: " ++ jsErrToString (.invalidGroupCode 10 (.fin 2000000)),
             [badLineRec])]) ++
         unitsDiags (entitySvgMapF M0 dxfBad opts0 (entitiesSvgFuel M0 dxfBad opts0 0))
           [(circleRec, ([] : List Record))]) :=
  claim_C1_fault_isolation M0 dxfBad opts0 0 [badLineRec, circleRec]
    [] [(circleRec, [])] (badLineRec, []) "LINE" (LINE dxfBad opts0)
    [] (.invalidGroupCode 10 (.fin 2000000)) rfl rfl (by decide) rfl (by decide)

/-- Counterexample to C2: a document containing an entity whose group 10
value is 2000000 (beyond the 1e6 bound) does NOT abort the conversion: a
scene is returned, the other entity (a circle) is rendered and contributes
the bounding box, and the error is delivered as a caught per-entity
diagnostic. -/
theorem claim_C2_counterexample :
    (createSvgContents M0 1 dxfBad opts0).1.1 =
      "<circle stroke=\"currentColor\" cx=\"5\" cy=\"-5\" r=\"2\" fill=\"none\" vector-effect=\"non-scaling-stroke\"/>" ∧
    (createSvgContents M0 1 dxfBad opts0).1.2 = ⟨.fin 3, .fin (-7), .fin 4, .fin 4⟩ ∧
    (createSvgContents M0 1 dxfBad opts0).2 =
      [("Error occurred: Error: group code 10 is invalid (2000000)", [badLineRec])] := by
  refine ⟨?_, ?_, ?_⟩ <;> decide

/-- C2 as amended: the numeric accessor does raise the sanity-bound error
for a field beyond 1e6, but the per-entity handler of the scene assembler
catches it: the entity is reported together with its record and omitted
(no svg text, no coordinates), and the conversion continues instead of
aborting. -/
theorem claim_C2_sanity_bound_caught
    (record : Record) (c : ℤ) (dflt : Option JNum) (s : String) (q : JsRat)
    (emap : String → Option EntityFn) (u : Record × List Record) (ty : String)
    (f : EntityFn) (ds : List Diag)
    (hv : getGroupCodeValue record c = some s) (hq : jsStrToNum s = .fin q)
    (hbound : (1000000 : JsRat) < q.abs)
    (hty : getGroupCodeValue u.1 0 = some ty) (hne : ty ≠ "") (hf : emap ty = some f)
    (herr : f u.1 u.2 = (ds, .error (.invalidGroupCode c (.fin q)))) :
    dollarNumber record c dflt = .error (.invalidGroupCode c (.fin q)) ∧
    unitOut emap u = ("", [], [],
      ds ++ [("Error occurred: " ++ jsErrToString (.invalidGroupCode c (.fin q)), [u.1])]) := by
  constructor
  · have hb : jgt (jabs (.fin q)) (.fin 1000000) = true := by
      simp [jgt, jlt, jabs]
      exact hbound
    simp [dollarNumber, jsToNum, hv, hq, JNum.isNan, hb]
  · exact unitOut_error emap u ty f ds _ hty hne hf herr

/-- Witness for C2 at the concrete corrupt line record. -/
theorem claim_C2_sanity_bound_caught_witness :
    dollarNumber badLineRec 10 none =
      .error (.invalidGroupCode 10 (.fin 2000000)) ∧
    unitOut (entitySvgMapF M0 dxfBad opts0 (entitiesSvgFuel M0 dxfBad opts0 0))
        (badLineRec, []) =
      ("", [], [],
        [] ++ [("Error occurred: " ++ jsErrToString (.invalidGroupCode 10 (.fin 2000000)),
          [badLineRec])]) :=
  claim_C2_sanity_bound_caught badLineRec 10 none "2000000" 2000000
    (entitySvgMapF M0 dxfBad opts0 (entitiesSvgFuel M0 dxfBad opts0 0))
    (badLineRec, []) "LINE" (LINE dxfBad opts0) []
    rfl (by decide) (by decide) rfl (by decide) rfl (by decide)

/-- Counterexample to C3: an even-length raw pattern starting with "0" is
normalized by dropping the zero only — no trailing zero is appended — and
an even-length pattern not starting with "0" normalizes to an odd length,
so the normalized pattern is neither empty nor of even length. -/
theorem claim_C3_counterexample :
    normalizeDasharray ["0", "2"] = ["2"] ∧
    normalizeDasharray ["0", "2"] ≠ ["2", "0"] ∧
    ¬ (normalizeDasharray ["5", "3"] = [] ∨
       (normalizeDasharray ["5", "3"]).length % 2 = 0) := by
  refine ⟨by decide, by decide, by decide⟩

/-- C3 as amended: the normalized dash pattern is either empty or of odd
length (an odd-length raw pattern is kept as is; an even-length pattern
loses its leading "0" or gains a trailing "0"), and an even-length raw
pattern whose first trimmed, sign-stripped segment is "0" is normalized by
dropping that leading zero only. -/
theorem claim_C3_dash_normalization (raw : List String) :
    (normalizeDasharray raw = [] ∨ (normalizeDasharray raw).length % 2 = 1) ∧
    (raw.length % 2 = 0 → raw ≠ [] →
      ((raw.map jsTrimVal).map stripNegSign).head? = some "0" →
      normalizeDasharray raw = ((raw.map jsTrimVal).map stripNegSign).tail) := by
  have hlen : ((raw.map jsTrimVal).map stripNegSign).length = raw.length := by simp
  constructor
  · simp only [normalizeDasharray]
    split_ifs with h1 h2
    · rcases h1 with h | h
      · left
        exact List.length_eq_zero.mp h
      · right
        exact h
    · right
      push_neg at h1
      have ht : ((raw.map jsTrimVal).map stripNegSign).tail.length =
          ((raw.map jsTrimVal).map stripNegSign).length - 1 := by simp
      rw [ht]
      omega
    · right
      push_neg at h1
      simp only [List.length_append, List.length_cons, List.length_nil]
      omega
  · intro he hne hh
    simp only [normalizeDasharray]
    have h1 : ¬ (((raw.map jsTrimVal).map stripNegSign).length = 0 ∨
        ((raw.map jsTrimVal).map stripNegSign).length % 2 = 1) := by
      rw [hlen]
      push_neg
      refine ⟨fun h => hne (List.length_eq_zero.mp h), by omega⟩
    rw [if_neg h1, if_pos hh]

/-- Witness for C3 at the concrete rotated pattern. -/
theorem claim_C3_dash_normalization_witness :
    (normalizeDasharray ["0", "2"] = [] ∨ (normalizeDasharray ["0", "2"]).length % 2 = 1) ∧
    normalizeDasharray ["0", "2"] = ["2"] :=
  ⟨(claim_C3_dash_normalization ["0", "2"]).1,
   (claim_C3_dash_normalization ["0", "2"]).2 (by decide) (by decide) (by decide)⟩

theorem JsRat.lt_iff (a b : JsRat) :
    a < b ↔ a.num * (b.den : ℤ) < b.num * (a.den : ℤ) := Iff.rfl

/-- A number strictly below zero is not strictly above it. -/
theorem jlt_zero_not_jgt (p : JNum) (h : jlt p (.fin 0) = true) :
    jgt p (.fin 0) = false := by
  cases p <;> simp_all [jlt, jgt]
  rename_i q
  rw [JsRat.lt_iff] at h ⊢
  simp at h ⊢
  omega

/-- Counterexample to C4: with tolerance enabled, plus 5 and minus 0, the
stacked suffix renders the zero component as " 0" (a space and a zero), not
as the literal "0" the claim states. -/
theorem claim_C4_counterexample :
    dimensionValueToMText (.fin 10) [] stylesTol50 = .ok "10  \x7b\\S+5^ 0;\x7d" ∧
    toleranceString (.fin 0) = " 0" ∧
    " 0" ≠ "0" := by
  refine ⟨by decide, by decide, by decide⟩

/-- C4 as amended: with tolerance enabled and both components zero there is
no suffix; with equal non-zero components the suffix is "±p"; with unequal
components the suffix stacks the signed components, where a positive
component renders "+p", a negative one "-n", and a zero component renders
as " 0" (a space and a zero — never "+0" or "-0", but not the bare "0"
either). -/
theorem claim_C4_tolerance_format
    (measurement : JNum) (dimension : Record) (styles : DimStyleVals) (v : JNum)
    (hsv : dollarNumber dimension 42 (some (.fin (-1))) = .ok (.fin (-1)))
    (htmpl : getGroupCodeValue dimension 1 = none)
    (hval : jsRound (jmul measurement styles.DIMLFAC) styles.DIMDEC = v) :
    (styles.DIMTOL.truthy = true → styles.DIMTP = .fin 0 → styles.DIMTM = .fin 0 →
      dimensionValueToMText measurement dimension styles = .ok (jnumToString v)) ∧
    (styles.DIMTOL.truthy = true → styles.DIMTP.truthy = true →
      jseq styles.DIMTP styles.DIMTM = true →
      dimensionValueToMText measurement dimension styles =
        .ok (jnumToString v ++ "  ±" ++ jnumToString styles.DIMTP)) ∧
    (styles.DIMTOL.truthy = true →
      (styles.DIMTP.truthy = true ∨ styles.DIMTM.truthy = true) →
      jseq styles.DIMTP styles.DIMTM = false →
      dimensionValueToMText measurement dimension styles =
        .ok (jnumToString v ++ "  \x7b\\S" ++ toleranceString styles.DIMTP ++ "^" ++
          toleranceString (jneg styles.DIMTM) ++ ";\x7d")) ∧
    toleranceString (.fin 0) = " 0" ∧
    (∀ p : JNum, jgt p (.fin 0) = true → toleranceString p = "+" ++ jnumToString p) ∧
    (∀ p : JNum, jlt p (.fin 0) = true → toleranceString p = jnumToString p) := by
  refine ⟨?_, ?_, ?_, by decide, ?_, ?_⟩
  · intro h1 h2 h3
    simp [dimensionValueToMText, hsv, htmpl, hval, h1, h2, h3, bind, Except.bind,
      JNum.jseq, JNum.truthy]
  · intro h1 h2 h3
    have hs : JNum.jseq (.fin (-1)) (.fin (-1)) = true := by decide
    simp [dimensionValueToMText, hsv, htmpl, hval, h1, h2, h3, bind, Except.bind, hs]
  · intro h1 h2 h3
    have hs : JNum.jseq (.fin (-1)) (.fin (-1)) = true := by decide
    simp [dimensionValueToMText, hsv, htmpl, hval, h1, h2, h3, bind, Except.bind, hs]
  · intro p hp
    simp [toleranceString, hp]
  · intro p hp
    simp [toleranceString, hp, jlt_zero_not_jgt p hp]

/-- Witness for C4 at concrete styles (tolerance on, plus 5, minus 5). -/
theorem claim_C4_tolerance_format_witness :
    dimensionValueToMText (.fin 10) []
        ⟨.fin 1, .fin 5, .fin 5, .fin 1, .fin 1, .fin 1, .nan, .fin 4⟩ =
      .ok (jnumToString (jsRound (jmul (.fin 10) (.fin 1)) (.fin 4)) ++ "  ±" ++
        jnumToString (.fin 5)) :=
  (claim_C4_tolerance_format (.fin 10) []
      ⟨.fin 1, .fin 5, .fin 5, .fin 1, .fin 1, .fin 1, .nan, .fin 4⟩
      (jsRound (jmul (.fin 10) (.fin 1)) (.fin 4))
      (by decide) rfl rfl).2.1 (by decide) (by decide) (by decide)

/-- Counterexample to C5: an entity with explicit color index "0" on a
layer whose resolved color is "red" gets `currentColor` (inherit from the
drawing context), not the layer color as the claim states. -/
theorem claim_C5_counterexample :
    underscoreColor dxfLayer optsRed [(62, "0"), (8, "L")] = some "currentColor" ∧
    (layerMapGet dxfLayer optsRed (some "L")).map (fun l => l.color) = some "red" ∧
    underscoreColor dxfLayer optsRed [(62, "0"), (8, "L")] ≠ some "red" := by
  refine ⟨by decide, by decide, by decide⟩

/-- C5 as amended: the inherit sentinel "0" resolves directly to the
drawing-context color `currentColor`; any other truthy index except the
by-layer sentinel "256" resolves through the color collaborator; an absent,
empty or "256" index falls back to the color of the owning layer; and when
nothing resolves, the result is `currentColor`. -/
theorem claim_C5_color_resolution (dxf : Dxf) (opts : Options) (entity : Record) :
    (dollarTrim entity 62 = some "0" →
      underscoreColor dxf opts entity = some "currentColor") ∧
    (∀ s : String, dollarTrim entity 62 = some s → s ≠ "" → s ≠ "0" → s ≠ "256" →
      underscoreColor dxf opts entity = some (opts.resolveColorIndex (jsStrToNum s))) ∧
    ((dollarTrim entity 62 = none ∨ dollarTrim entity 62 = some "" ∨
        dollarTrim entity 62 = some "256") →
      underscoreColor dxf opts entity =
        (layerMapGet dxf opts (dollarTrim entity 8)).map (fun l => l.color)) ∧
    (underscoreColor dxf opts entity = none → color dxf opts entity = "currentColor") := by
  refine ⟨?_, ?_, ?_, ?_⟩
  · intro h
    simp [underscoreColor, h]
  · intro s hs h1 h2 h3
    cases hl : layerMapGet dxf opts (dollarTrim entity 8) <;>
      simp [underscoreColor, hs, h1, h2, h3, optTruthy, jsToNum, hl]
  · intro h
    rcases h with h | h | h <;>
      cases hl : layerMapGet dxf opts (dollarTrim entity 8) <;>
        simp [underscoreColor, h, optTruthy, hl]
  · intro h
    simp [color, h]

/-- Witness for C5 at a concrete explicit index 3. -/
theorem claim_C5_color_resolution_witness :
    underscoreColor dxfLayer optsRed [(62, "3"), (8, "L")] =
      some (optsRed.resolveColorIndex (jsStrToNum "3")) :=
  (claim_C5_color_resolution dxfLayer optsRed [(62, "3"), (8, "L")]).2.1 "3"
    rfl (by decide) (by decide) (by decide)

/-- The backward scan of `MTEXT_angle` skips every pair whose code is none
of 50, 11, 21. -/
theorem MTEXT_angleScan_skip (M : JsMath) (mtext : Record)
    (l1 l2 : List (Int × String))
    (h : ∀ p ∈ l1, p.1 ≠ 50 ∧ p.1 ≠ 11 ∧ p.1 ≠ 21) :
    MTEXT_angleScan M mtext (l1 ++ l2) = MTEXT_angleScan M mtext l2 := by
  induction l1 with
  | nil => rfl
  | cons p l ih =>
      obtain ⟨c, v⟩ := p
      obtain ⟨h50, h11, h21⟩ := h (c, v) (List.mem_cons_self _ l)
      simp only [List.cons_append, MTEXT_angleScan, h50, h11, h21, if_false, ite_false]
      simpa using ih (fun q hq => h q (List.mem_cons_of_mem _ hq))

/-- Counterexample to C6: a record carrying group 50 (value 45) before a
group 11 pair rotates by 0, not by the stored 45 — the later group wins,
so group 50 does not take priority regardless of position.  (The chosen
math model agrees with the true `atan2` on the ray used: `atan2(0, 1) = 0`.) -/
theorem claim_C6_counterexample :
    MTEXT_angle M0 [(50, "45"), (11, "1")] = .ok (.fin 0) ∧
    M0.atan2 (.fin 0) (.fin 1) = .fin 0 ∧
    (Except.ok (JNum.fin 0) : Except JsErr JNum) ≠ .ok (.fin 45) := by
  refine ⟨by decide, rfl, by decide⟩

/-- C6 as amended: the LAST pair among groups 50, 11 and 21 in the record
decides the rotation — 50 gives its stored angle (rounded, falsy to 0), 11
gives `atan2` of the group 12 value over this x component, 21 gives `atan2`
of this y component over the group 11 value (no 90-degree subtraction
anywhere); with none of the three present the angle is 0. -/
theorem claim_C6_mtext_rotation
    (M : JsMath) (mtext : Record) (a b : List (Int × String)) (c : ℤ) (v : String)
    (hsplit : mtext = a ++ (c, v) :: b)
    (hb : ∀ p ∈ b, p.1 ≠ 50 ∧ p.1 ≠ 11 ∧ p.1 ≠ 21) :
    (c = 50 → MTEXT_angle M mtext =
      .ok (if (jsRound (jsStrToNum v) (.fin 5)).truthy then jsRound (jsStrToNum v) (.fin 5)
           else .fin 0)) ∧
    (c = 11 → MTEXT_angle M mtext =
      (dollarNumber mtext 12 none).map (fun y => yx2angle M y (jsStrToNum v))) ∧
    (c = 21 → MTEXT_angle M mtext =
      (dollarNumber mtext 11 none).map (fun x => yx2angle M (jsStrToNum v) x)) ∧
    ((∀ p ∈ mtext, p.1 ≠ 50 ∧ p.1 ≠ 11 ∧ p.1 ≠ 21) → MTEXT_angle M mtext = .ok (.fin 0)) := by
  have hrev : mtext.reverse = b.reverse ++ (c, v) :: a.reverse := by
    rw [hsplit]
    simp
  have hskip : MTEXT_angle M mtext = MTEXT_angleScan M mtext ((c, v) :: a.reverse) := by
    unfold MTEXT_angle
    rw [hrev]
    exact MTEXT_angleScan_skip M mtext b.reverse _
      (fun p hp => hb p (List.mem_reverse.mp hp))
  refine ⟨?_, ?_, ?_, ?_⟩
  · intro hc
    subst hc
    rw [hskip]
    simp [MTEXT_angleScan]
  · intro hc
    subst hc
    rw [hskip]
    cases hd : dollarNumber mtext 12 none <;>
      simp [MTEXT_angleScan, bind, Except.bind, Except.map, hd]
  · intro hc
    subst hc
    rw [hskip]
    cases hd : dollarNumber mtext 11 none <;>
      simp [MTEXT_angleScan, bind, Except.bind, Except.map, hd]
  · intro hall
    unfold MTEXT_angle
    have : MTEXT_angleScan M mtext (mtext.reverse ++ []) = MTEXT_angleScan M mtext [] :=
      MTEXT_angleScan_skip M mtext mtext.reverse []
        (fun p hp => hall p (List.mem_reverse.mp hp))
    rw [List.append_nil] at this
    rw [this]
    rfl

/-- Witness for C6: with the group 50 pair last, its stored 45 wins. -/
theorem claim_C6_mtext_rotation_witness :
    MTEXT_angle M0 [(11, "1"), (50, "45")] =
      .ok (if (jsRound (jsStrToNum "45") (.fin 5)).truthy then jsRound (jsStrToNum "45") (.fin 5)
           else .fin 0) :=
  (claim_C6_mtext_rotation M0 [(11, "1"), (50, "45")] [(11, "1")] [] 50 "45"
    rfl (by simp)).1 rfl

/-- Counterexample to C7: a sweep starting at 0.01 (within the 1/64
tolerance of 0 but not a full turn: the stored start parameter is not 0)
still produces an ellipse primitive and no diagnostic, so not every
partial sweep is reported unsupported. -/
theorem claim_C7_counterexample :
    ELLIPSE M0 dxfEmpty opts0 ellipseNearRec [] =
      ([], .ok (some ("<ellipse stroke=\"currentColor\"/>",
        [.fin 0, .fin 0], [.fin 0, .fin 0]))) ∧
    dollarNumber ellipseNearRec 41 (some (.fin 0)) = .ok (.fin (jrat 1 100)) ∧
    JNum.fin (jrat 1 100) ≠ .fin 0 := by
  refine ⟨by decide, by decide, by decide⟩

/-- C7 as amended: an ellipse renders as a full-turn primitive exactly when
the stored start parameter is within 1/64 of 0 and the end parameter is
within 1/64 of 2π (so some partial sweeps inside the tolerance render as
full turns); every sweep outside the tolerance is reported through the
diagnostic sink and omitted — no primitive, no coordinates, no error. -/
theorem claim_C7_ellipse_support
    (M : JsMath) (dxf : Dxf) (opts : Options) (entity : Record) (vs : List Record)
    (r1 r2 : JNum)
    (h1 : dollarNumber entity 41 (some (.fin 0)) = .ok r1)
    (h2 : dollarNumber entity 42 (some (.fin jsTwoPI)) = .ok r2) :
    (¬ (nearlyEqual r1 (.fin 0) = true ∧ nearlyEqual r2 (.fin jsTwoPI) = true) →
      ELLIPSE M dxf opts entity vs =
        ([("Elliptical arc cannot be rendered yet.", [])], .ok none)) ∧
    (nearlyEqual r1 (.fin 0) = true → nearlyEqual r2 (.fin jsTwoPI) = true →
      ∀ ns, dollarNumbers entity [10, 20, 11, 21] = .ok ns →
      ∀ mr, dollarNumber entity 40 none = .ok mr →
      ∃ prim xs ys, ELLIPSE M dxf opts entity vs = ([], .ok (some (prim, xs, ys)))) := by
  constructor
  · intro hno
    simp only [ELLIPSE, h1, h2, bind, Except.bind]
    rw [if_neg hno]
  · intro ha hb ns hns mr hmr
    simp only [ELLIPSE, h1, h2, bind, Except.bind, hns, hmr, Except.map, ha, hb,
      and_self, if_true]
    exact ⟨_, _, _, rfl⟩

/-- Witness for C7: a record with both sweep groups absent defaults to the
exact full turn and renders; the far-off start parameter 1 is reported and
omitted. -/
theorem claim_C7_ellipse_support_witness :
    (∃ prim xs ys, ELLIPSE M0 dxfEmpty opts0 [(0, "ELLIPSE")] [] =
      ([], .ok (some (prim, xs, ys)))) ∧
    ELLIPSE M0 dxfEmpty opts0 ellipseFarRec [] =
      ([("Elliptical arc cannot be rendered yet.", [])], .ok none) :=
  ⟨(claim_C7_ellipse_support M0 dxfEmpty opts0 [(0, "ELLIPSE")] [] (.fin 0) (.fin jsTwoPI)
      (by decide) (by decide)).2 (by decide) (by decide)
      [JNum.nan, JNum.nan, JNum.nan, JNum.nan] (by decide) JNum.nan (by decide),
   (claim_C7_ellipse_support M0 dxfEmpty opts0 ellipseFarRec [] (.fin 1) (.fin jsTwoPI)
      (by decide) (by decide)).1 (by decide)⟩

/-- Model of `$number` depends on the record only through the value stored at its
group code. -/
theorem dollarNumber_congr (e1 e2 : Record) (c : ℤ) (d : Option JNum)
    (h : getGroupCodeValue e1 c = getGroupCodeValue e2 c) :
    dollarNumber e1 c d = dollarNumber e2 c d := by
  unfold dollarNumber
  rw [h]

/-- C8: the concrete insert scenario — a block holding a line from (0,0) to
(1,0), inserted at (100,0) with scale 2, yields the nested line under the
transform "translate(100,0) scale(2,2)" (so it spans (100,0) to (102,0)),
reports extents 100 and 102, and merges bounding box {x:100,y:0,w:2,h:0}
into the parent — and, in general, the extents an INSERT reports are
independent of the stored rotation (group 50): two insert records equal at
every other group code report identical extents. -/
theorem claim_C8_insert_transform :
    (createSvgContents M0 2 dxfIns opts0 =
      (("<g transform=\"translate(100,0) scale(2,2)\"><line stroke=\"currentColor\" x2=\"1\" fill=\"none\" vector-effect=\"non-scaling-stroke\"/></g>",
        ⟨.fin 100, .fin 0, .fin 2, .fin 0⟩), []) ∧
     INSERT dxfIns opts0 (entitiesSvgFuel M0 dxfIns opts0 1) insertRec [] =
      ([], .ok (some ("<g transform=\"translate(100,0) scale(2,2)\"><line stroke=\"currentColor\" x2=\"1\" fill=\"none\" vector-effect=\"non-scaling-stroke\"/></g>",
        [.fin 100, .fin 102], [.fin 0, .fin 0])))) ∧
    (∀ (dxf : Dxf) (opts : Options)
       (recurse : Option (List Record) → (String × BBox) × List Diag)
       (e1 e2 : Record) (vs1 vs2 : List Record) (r1v r2v : JNum),
      (∀ c : ℤ, c ≠ 50 → getGroupCodeValue e1 c = getGroupCodeValue e2 c) →
      dollarNumber e1 50 none = .ok r1v →
      dollarNumber e2 50 none = .ok r2v →
      interpExtents (INSERT dxf opts recurse e1 vs1) =
        interpExtents (INSERT dxf opts recurse e2 vs2)) := by
  constructor
  · exact ⟨by decide, by decide⟩
  · intro dxf opts recurse e1 e2 vs1 vs2 r1v r2v hag h50a h50b
    have e10 := dollarNumber_congr e1 e2 10 (some (.fin 0)) (hag 10 (by decide))
    have e20 := dollarNumber_congr e1 e2 20 (some (.fin 0)) (hag 20 (by decide))
    have e41 := dollarNumber_congr e1 e2 41 (some (.fin 1)) (hag 41 (by decide))
    have e42 := dollarNumber_congr e1 e2 42 (some (.fin 1)) (hag 42 (by decide))
    have e2b : getGroupCodeValue e1 2 = getGroupCodeValue e2 2 := hag 2 (by decide)
    cases h10 : dollarNumber e2 10 (some (.fin 0)) with
    | error err =>
        simp [INSERT, e10.trans h10, h10, bind, Except.bind, interpExtents]
    | ok x =>
        cases h20 : dollarNumber e2 20 (some (.fin 0)) with
        | error err =>
            simp [INSERT, e10.trans h10, h10, e20.trans h20, h20, bind, Except.bind,
              Except.map, interpExtents]
        | ok y0 =>
            cases h41 : dollarNumber e2 41 (some (.fin 1)) with
            | error err =>
                simp [INSERT, e10.trans h10, h10, e20.trans h20, h20, h50a, h50b,
                  e41.trans h41, h41, bind, Except.bind, Except.map, interpExtents]
            | ok sx =>
                cases h42 : dollarNumber e2 42 (some (.fin 1)) with
                | error err =>
                    simp [INSERT, e10.trans h10, h10, e20.trans h20, h20, h50a, h50b,
                      e41.trans h41, h41, e42.trans h42, h42, bind, Except.bind,
                      Except.map, interpExtents]
                | ok sy =>
                    simp [INSERT, e10.trans h10, h10, e20.trans h20, h20, h50a, h50b,
                      e41.trans h41, h41, e42.trans h42, h42, bind, Except.bind,
                      Except.map, interpExtents, e2b]

/-- Witness for C8: adding a rotation of 90 degrees to the concrete insert
leaves its reported extents unchanged. -/
theorem claim_C8_insert_transform_witness :
    interpExtents (INSERT dxfIns opts0 (entitiesSvgFuel M0 dxfIns opts0 1) insertRec []) =
      interpExtents (INSERT dxfIns opts0 (entitiesSvgFuel M0 dxfIns opts0 1)
        ((50, "90") :: insertRec) []) :=
  claim_C8_insert_transform.2 dxfIns opts0 (entitiesSvgFuel M0 dxfIns opts0 1)
    insertRec ((50, "90") :: insertRec) [] [] JNum.nan (.fin 90)
    (fun c hc => by
      simp only [getGroupCodeValue, List.find?]
      have h50 : ¬ ((50 : ℤ) = c) := fun h => hc h.symm
      simp [h50])
    (by decide) (by decide)

theorem unitsSvg_all_empty (emap : String → Option EntityFn)
    (us : List (Record × List Record)) (h : ∀ u ∈ us, (unitOut emap u).1 = "") :
    unitsSvg emap us = "" := by
  induction us with
  | nil => rfl
  | cons u l ih =>
      rw [unitsSvg_cons, h u (List.mem_cons_self _ _),
        ih (fun q hq => h q (List.mem_cons_of_mem _ hq))]
      rfl

theorem unitsXs_all_nil (emap : String → Option EntityFn)
    (us : List (Record × List Record)) (h : ∀ u ∈ us, (unitOut emap u).2.1 = []) :
    unitsXs emap us = [] := by
  induction us with
  | nil => rfl
  | cons u l ih =>
      rw [unitsXs_cons, h u (List.mem_cons_self _ _),
        ih (fun q hq => h q (List.mem_cons_of_mem _ hq))]
      rfl

theorem unitsYs_all_nil (emap : String → Option EntityFn)
    (us : List (Record × List Record)) (h : ∀ u ∈ us, (unitOut emap u).2.2.1 = []) :
    unitsYs emap us = [] := by
  induction us with
  | nil => rfl
  | cons u l ih =>
      rw [unitsYs_cons, h u (List.mem_cons_self _ _),
        ih (fun q hq => h q (List.mem_cons_of_mem _ hq))]
      rfl

/-- C9: when no unit contributes svg text or coordinates (no entity is
successfully rendered, including an empty or absent entity list), the
returned bounding box is the degenerate
{x: Infinity, y: Infinity, w: -Infinity, h: -Infinity}, and the convenience
wrapper embeds the non-finite values directly in the viewBox, width and
height of the root svg element. -/
theorem claim_C9_degenerate_bbox
    (M : JsMath) (fuel : ℕ) (dxf : Dxf) (opts : Options)
    (h : ∀ u ∈ groupEntities (dxf.ENTITIES.getD []),
        (unitOut (entitySvgMapF M dxf opts (entitiesSvgFuel M dxf opts fuel)) u).1 = "" ∧
        (unitOut (entitySvgMapF M dxf opts (entitiesSvgFuel M dxf opts fuel)) u).2.1 = [] ∧
        (unitOut (entitySvgMapF M dxf opts (entitiesSvgFuel M dxf opts fuel)) u).2.2.1 = []) :
    (createSvgContents M (fuel + 1) dxf opts).1.2 =
      ⟨.posInf, .posInf, .negInf, .negInf⟩ ∧
    (createSvgString M (fuel + 1) dxf opts).1 =
      "<svg xmlns=\"http://www.w3.org/2000/svg\" viewBox=\"Infinity Infinity -Infinity -Infinity\" width=\"-Infinity\" height=\"-Infinity\"/>" := by
  have hunits : (match dxf.ENTITIES with
      | some es => groupEntities es
      | none => ([] : List (Record × List Record))) =
      groupEntities (dxf.ENTITIES.getD []) := by
    cases dxf.ENTITIES <;> rfl
  have hsvg := unitsSvg_all_empty (entitySvgMapF M dxf opts (entitiesSvgFuel M dxf opts fuel))
    _ (fun u hu => (h u hu).1)
  have hxs := unitsXs_all_nil (entitySvgMapF M dxf opts (entitiesSvgFuel M dxf opts fuel))
    _ (fun u hu => (h u hu).2.1)
  have hys := unitsYs_all_nil (entitySvgMapF M dxf opts (entitiesSvgFuel M dxf opts fuel))
    _ (fun u hu => (h u hu).2.2)
  have hc : (createSvgContents M (fuel + 1) dxf opts).1 =
      ("", ⟨.posInf, .posInf, .negInf, .negInf⟩) := by
    show (entitiesSvgWith (entitySvgMapF M dxf opts (entitiesSvgFuel M dxf opts fuel))
      dxf.ENTITIES).1 = _
    unfold entitiesSvgWith
    rw [hunits, assembleUnits_eq, hsvg, hxs, hys]
    simp [initAcc, jsub, jadd, jneg]
  refine ⟨?_, ?_⟩
  · exact congrArg Prod.snd hc
  · show (jsx "svg"
      [("xmlns", .s "http://www.w3.org/2000/svg"),
       ("viewBox", .s (jnumToString (createSvgContents M (fuel + 1) dxf opts).1.2.x ++ " " ++
         jnumToString (createSvgContents M (fuel + 1) dxf opts).1.2.y ++ " " ++
         jnumToString (createSvgContents M (fuel + 1) dxf opts).1.2.w ++ " " ++
         jnumToString (createSvgContents M (fuel + 1) dxf opts).1.2.h)),
       ("width", .n (createSvgContents M (fuel + 1) dxf opts).1.2.w),
       ("height", .n (createSvgContents M (fuel + 1) dxf opts).1.2.h),
       ("children", .s (createSvgContents M (fuel + 1) dxf opts).1.1)]) = _
    rw [hc]
    decide

/-- Witness for C9: the document with no collections at all. -/
theorem claim_C9_degenerate_bbox_witness :
    (createSvgContents M0 1 dxfEmpty opts0).1.2 =
      ⟨.posInf, .posInf, .negInf, .negInf⟩ ∧
    (createSvgString M0 1 dxfEmpty opts0).1 =
      "<svg xmlns=\"http://www.w3.org/2000/svg\" viewBox=\"Infinity Infinity -Infinity -Infinity\" width=\"-Infinity\" height=\"-Infinity\"/>" :=
  claim_C9_degenerate_bbox M0 0 dxfEmpty opts0
    (by intro u hu; simp [groupEntities, groupEntitiesAux, dxfEmpty] at hu)

theorem entitiesSvgFuel_none (M : JsMath) (dxf : Dxf) (opts : Options) (fuel : ℕ) :
    entitiesSvgFuel M dxf opts fuel none =
      (("", ⟨.posInf, .posInf, .negInf, .negInf⟩), []) := by
  cases fuel <;> rfl

/-- A finite value plus `Infinity` times anything is never finite. -/
theorem jmul_posInf_then_add_not_fin (qw : JsRat) (u : JNum) :
    (jadd (.fin qw) (jmul .posInf u)).isFin = false := by
  cases u with
  | fin q =>
      by_cases h1 : (0 : JsRat) < q
      · simp [jmul, h1, jadd, JNum.isFin]
      · by_cases h2 : q < 0
        · simp [jmul, h1, h2, jadd, JNum.isFin]
        · simp [jmul, h1, h2, jadd, JNum.isFin]
  | posInf => simp [jmul, jadd, JNum.isFin]
  | negInf => simp [jmul, jadd, JNum.isFin]
  | nan => simp [jmul, jadd, JNum.isFin]

/-- A finite value plus `Infinity` scaled by a truthy-or-one factor is
never finite. -/
theorem insert_coord1_not_fin (w v : JNum) (hw : w.isFin = true) :
    (jadd w (jmul .posInf (if v.truthy then v else .fin 1))).isFin = false := by
  cases w with
  | fin qw => exact jmul_posInf_then_add_not_fin qw _
  | posInf => simp [JNum.isFin] at hw
  | negInf => simp [JNum.isFin] at hw
  | nan => simp [JNum.isFin] at hw

/-- A value plus `NaN` (from `Infinity + -Infinity`) scaled by anything is
never finite. -/
theorem insert_coord2_not_fin (w s : JNum) :
    (jadd w (jmul (jadd .posInf .negInf) s)).isFin = false := by
  cases s <;> cases w <;> simp [jadd, jmul, JNum.isFin]

/-- C10: an insert whose named block is absent from the block mapping does
not fail and emits no diagnostic: the interpreter returns a group
primitive with empty contents, and both reported coordinate pairs are
non-finite (the degenerate nested box), so the insert contributes nothing
to the parent bounding box. -/
theorem claim_C10_missing_block
    (M : JsMath) (dxf : Dxf) (opts : Options) (fuel : ℕ) (entity : Record)
    (vs : List Record) (x y0 rot sx sy : JNum)
    (hblock : dxf.BLOCKS.bind (fun bs => (getGroupCodeValue entity 2).bind
      (fun name => (bs.find? (fun b => b.1 = name)).map (fun b => b.2))) = none)
    (h10 : dollarNumber entity 10 (some (.fin 0)) = .ok x)
    (h20 : dollarNumber entity 20 (some (.fin 0)) = .ok y0)
    (h50 : dollarNumber entity 50 none = .ok rot)
    (h41 : dollarNumber entity 41 (some (.fin 1)) = .ok sx)
    (h42 : dollarNumber entity 42 (some (.fin 1)) = .ok sy)
    (hx : x.isFin = true) (hy : y0.isFin = true) :
    ∃ t,
      INSERT dxf opts (entitiesSvgFuel M dxf opts fuel) entity vs =
        ([], .ok (some (jsx "g" (commonAttributes entity ++
          [("color", optStr (underscoreColor dxf opts entity)),
           ("transform", .s t), ("children", .s "")]),
          [jadd x (jmul .posInf (if sx.truthy then sx else .fin 1)),
           jadd x (jmul (jadd .posInf .negInf) (if sx.truthy then sx else .fin 1))],
          [jadd (jneg y0) (jmul .posInf (if sy.truthy then sy else .fin 1)),
           jadd (jneg y0) (jmul (jadd .posInf .negInf) (if sy.truthy then sy else .fin 1))]))) ∧
      [jadd x (jmul .posInf (if sx.truthy then sx else .fin 1)),
       jadd x (jmul (jadd .posInf .negInf) (if sx.truthy then sx else .fin 1))].filter
        JNum.isFin = [] ∧
      [jadd (jneg y0) (jmul .posInf (if sy.truthy then sy else .fin 1)),
       jadd (jneg y0) (jmul (jadd .posInf .negInf) (if sy.truthy then sy else .fin 1))].filter
        JNum.isFin = [] := by
  have hyn : (jneg y0).isFin = true := by
    cases y0 <;> simp_all [JNum.isFin, jneg]
  refine ⟨strIntercalate " " (List.filter (fun p => p ≠ "")
    [(if x.truthy ∨ (jneg y0).truthy then
        "translate(" ++ jnumToString x ++ "," ++ jnumToString (jneg y0) ++ ")" else ""),
     (if jseq (if sx.truthy then sx else .fin 1) (.fin 1) = false ∨
         jseq (if sy.truthy then sy else .fin 1) (.fin 1) = false then
        "scale(" ++ jnumToString (if sx.truthy then sx else .fin 1) ++ "," ++
          jnumToString (if sy.truthy then sy else .fin 1) ++ ")" else ""),
     (if (jneg rot).truthy then "rotate(" ++ jnumToString (jneg rot) ++ ")" else "")]),
    ?_, ?_, ?_⟩
  · simp only [INSERT, h10, h20, h50, h41, h42, bind, Except.bind, Except.map, hblock,
      Option.map_none', entitiesSvgFuel_none]
  · simp [List.filter, insert_coord1_not_fin x sx hx, insert_coord2_not_fin]
  · simp [List.filter, insert_coord1_not_fin (jneg y0) sy hyn, insert_coord2_not_fin]

/-- Witness for C10 at a concrete insert naming an absent block. -/
theorem claim_C10_missing_block_witness :
    ∃ t,
      INSERT dxfNoBlocks opts0 (entitiesSvgFuel M0 dxfNoBlocks opts0 0)
          insertMissingRec [] =
        ([], .ok (some (jsx "g" (commonAttributes insertMissingRec ++
          [("color", optStr (underscoreColor dxfNoBlocks opts0 insertMissingRec)),
           ("transform", .s t), ("children", .s "")]),
          [jadd (.fin 0) (jmul .posInf (if (JNum.fin 1).truthy then .fin 1 else .fin 1)),
           jadd (.fin 0) (jmul (jadd .posInf .negInf)
             (if (JNum.fin 1).truthy then .fin 1 else .fin 1))],
          [jadd (jneg (.fin 0)) (jmul .posInf (if (JNum.fin 1).truthy then .fin 1 else .fin 1)),
           jadd (jneg (.fin 0)) (jmul (jadd .posInf .negInf)
             (if (JNum.fin 1).truthy then .fin 1 else .fin 1))]))) ∧
      [jadd (.fin 0) (jmul .posInf (if (JNum.fin 1).truthy then .fin 1 else .fin 1)),
       jadd (.fin 0) (jmul (jadd .posInf .negInf)
         (if (JNum.fin 1).truthy then .fin 1 else .fin 1))].filter JNum.isFin = [] ∧
      [jadd (jneg (.fin 0)) (jmul .posInf (if (JNum.fin 1).truthy then .fin 1 else .fin 1)),
       jadd (jneg (.fin 0)) (jmul (jadd .posInf .negInf)
         (if (JNum.fin 1).truthy then .fin 1 else .fin 1))].filter JNum.isFin = [] :=
  claim_C10_missing_block M0 dxfNoBlocks opts0 0 insertMissingRec []
    (.fin 0) (.fin 0) JNum.nan (.fin 1) (.fin 1)
    (by decide) (by decide) (by decide) (by decide) (by decide) (by decide) rfl rfl
